import Mathlib

/-!
Verification of the orchestrator-supervisor plug-in (child-session registry,
forwarding resolver, pending-forward queue, idle delivery, error forwarding
and the tool surface).

The TypeScript sources are embedded shallowly: JavaScript strings become Lean
strings manipulated through executable character-list helpers mirroring the
exact JavaScript operations used by the code (split on a newline, trim,
substring containment, join); the file-backed registry store becomes a pure
association list threaded through every operation, with the read-modify-write
and normalization steps of the source preserved; host calls performed by the
tools become oracle inputs, and the messages a tool posts or dispatches are
collected as explicit effect values.
-/

namespace OpencodeCC

/-! ## JavaScript string primitives

Executable character-level models of the exact string operations the
TypeScript code uses: split("\n"), join("\n"), trim(), includes(),
slice(0, n) and length. -/

/-- Model of JavaScript split("\n") on a character list: cuts at every newline
character, keeping empty segments (accumulator holds the current segment in
reverse). -/
def splitNlAux : List Char → List Char → List (List Char)
  | [], acc => [acc.reverse]
  | c :: rest, acc =>
    if c = '\n' then acc.reverse :: splitNlAux rest []
    else splitNlAux rest (c :: acc)

/-- Model of JavaScript text.split("\n"). -/
def jsSplitNl (s : String) : List String :=
  (splitNlAux s.data []).map String.mk

/-- Model of JavaScript array.join("\n") over strings. -/
def jsJoinNl : List String → String
  | [] => ""
  | [x] => x
  | x :: y :: rest => x ++ "\n" ++ jsJoinNl (y :: rest)

/-- Model of JavaScript text.trim(): drop whitespace characters from both
ends (space, tab, carriage return, newline). -/
def jsTrim (s : String) : String :=
  String.mk (((s.data.dropWhile Char.isWhitespace).reverse.dropWhile Char.isWhitespace).reverse)

/-- Decides whether the pattern list occurs at the head of the list. -/
def charsHavePrefix : List Char → List Char → Bool
  | [], _ => true
  | _ :: _, [] => false
  | p :: ps, c :: cs => p = c && charsHavePrefix ps cs

/-- Decides whether the pattern list occurs contiguously anywhere in the
list. -/
def charsHaveInfix (pat : List Char) : List Char → Bool
  | [] => charsHavePrefix pat []
  | c :: cs => charsHavePrefix pat (c :: cs) || charsHaveInfix pat cs

/-- Model of JavaScript text.includes(pattern) for the nonempty patterns the
code uses. -/
def jsIncludes (s pat : String) : Bool :=
  charsHaveInfix pat.data s.data

/-- Model of JavaScript text.slice(0, n): the first n characters. -/
def jsTake (s : String) (n : Nat) : String :=
  String.mk (s.data.take n)

/-- Model of JavaScript text.length (number of characters). -/
def jsLength (s : String) : Nat :=
  s.data.length

/-- Shared helper truncateText(text, maxChars) duplicated across the source
files: trim, and when longer than the budget cut to the budget with an
ellipsis suffix (special-cased when the budget is at most 3). -/
def truncateText (text : String) (maxChars : Nat) : String :=
  let trimmed := jsTrim text
  if jsLength trimmed ≤ maxChars then trimmed
  else if maxChars ≤ 3 then jsTake trimmed maxChars
  else jsTake trimmed (maxChars - 3) ++ "..."

/-! ## Message model (child-session-forwarding-resolver.ts)

Normalized session messages: the resolver operates on messages of shape
role/id plus typed parts, exactly the output of normalizeMessages. -/

/-- One normalized message part: a type tag, optional text, optional ignored
flag. -/
structure MessagePart where
  type : String
  text : Option String
  ignored : Option Bool
deriving DecidableEq, Repr

/-- Normalized message info: role and id. -/
structure MessageInfo where
  role : String
  id : String
deriving DecidableEq, Repr

/-- One normalized session message. -/
structure SessionMessage where
  info : MessageInfo
  parts : List MessagePart
deriving DecidableEq, Repr

/-- Resolver output: the chosen assistant message id together with its
cleaned text. -/
structure ForwardableAssistantMessage where
  assistantMessageID : String
  text : String
deriving DecidableEq, Repr

/-- One outstanding forward obligation (session-registry.ts
PendingForwardRequest). -/
structure PendingForwardRequest where
  forwardToken : String
  createdAt : Int
  afterMessageCount : Option Int
  afterAssistantMessageID : Option String
deriving DecidableEq, Repr

/-- extractTextFromParts: concatenate with newlines the text of the parts of
type "text" whose ignored flag is not true. -/
def extractTextFromParts (parts : List MessagePart) : String :=
  jsJoinNl ((parts.filter (fun p => p.type == "text" && p.ignored != some true)).map
    (fun p => p.text.getD ""))

/-- buildTokenLine: the literal token line planted in prompts and scanned for
in replies. -/
def buildTokenLine (token : String) : String :=
  "opencode_cc_forward_token: " ++ token

/-- containsToken: JavaScript includes of the token line (substring
containment). -/
def containsToken (text token : String) : Bool :=
  jsIncludes text (buildTokenLine token)

/-- stripToken: split into lines, drop every line whose trim equals the token
line, join back. -/
def stripToken (text token : String) : String :=
  jsJoinNl ((jsSplitNl text).filter (fun l => jsTrim l != buildTokenLine token))

/-- findLatestAssistantMessageID: scan from the end for the first assistant
message. -/
def findLatestAssistantMessageID (messages : List SessionMessage) : Option String :=
  (messages.reverse.find? (fun m => m.info.role == "assistant")).map (fun m => m.info.id)

/-- createTriggerMarker: snapshot the current message count and the latest
assistant message id. -/
def createTriggerMarker (messages : List SessionMessage) : Int × Option String :=
  ((messages.length : Int), findLatestAssistantMessageID messages)

/-- resolveStartIndex, anchor part: when an afterAssistantMessageID is
present, nonempty and found, scanning starts right after it, else at 0. -/
def resolveAnchorIndex (messages : List SessionMessage) (request : PendingForwardRequest) : Nat :=
  match request.afterAssistantMessageID with
  | some id =>
    if id ≠ "" then
      match messages.findIdx? (fun m => m.info.id == id) with
      | some idx => idx + 1
      | none => 0
    else 0
  | none => 0

/-- resolveStartIndex: an afterMessageCount that is present and nonnegative
decides the start index (the value when within bounds, otherwise 0); only a
missing or negative count falls back to the id anchor. -/
def resolveStartIndex (messages : List SessionMessage) (request : PendingForwardRequest) : Nat :=
  match request.afterMessageCount with
  | some count =>
    if 0 ≤ count then
      if count ≤ (messages.length : Int) then count.toNat else 0
    else resolveAnchorIndex messages request
  | none => resolveAnchorIndex messages request

/-- Loop-body condition of findForwardableAssistantMessage: an assistant
message whose extracted text is nonempty after trimming, contains the token
line as a substring, and still has nonempty text once token lines are
stripped. -/
def isForwardableMessage (token : String) (msg : SessionMessage) : Bool :=
  let raw := extractTextFromParts msg.parts
  msg.info.role == "assistant" &&
    jsTrim raw != "" &&
    containsToken raw token &&
    jsTrim (stripToken raw token) != ""

/-- Cleaned forwarded text of a message: token lines stripped, then
trimmed. -/
def cleanedTextOf (token : String) (msg : SessionMessage) : String :=
  jsTrim (stripToken (extractTextFromParts msg.parts) token)

/-- findForwardableAssistantMessage: scan from the start index upward,
remembering the most recent qualifying assistant message. -/
def findForwardableAssistantMessage (messages : List SessionMessage)
    (request : PendingForwardRequest) : Option ForwardableAssistantMessage :=
  let token := request.forwardToken
  (messages.drop (resolveStartIndex messages request)).foldl
    (fun found msg =>
      if isForwardableMessage token msg then
        some ⟨msg.info.id, cleanedTextOf token msg⟩
      else found)
    none

/-! ## Durable session registry (session-registry.ts)

The file-backed store is modelled as a pure association list from child
session id to record; each public method of SessionRegistry becomes a pure
function threading the store, preserving the read-modify-write shape and the
normalization applied on every read and write. Disk failures (swallowed by
the source) are outside the model: every modelled write is the successful
read-modify-write the source attempts. -/

/-- State machine of a child session. -/
inductive ChildSessionState where
  | created
  | prompt_sent
  | result_received
  | error
deriving DecidableEq, Repr

/-- Registration data of a child record. -/
structure ChildSessionRegistration where
  childSessionID : String
  orchestratorSessionID : String
  orchestratorDirectory : Option String
  title : String
  createdAt : Int
  workspaceDirectory : Option String
  workspaceBranch : Option String
deriving DecidableEq, Repr

/-- Tracking data of a child record. -/
structure ChildSessionTracking where
  lastPromptAt : Option Int
  lastPromptAgent : Option String
  lastResultAt : Option Int
  lastErrorAt : Option Int
  lastAssistantMessageAt : Option Int
  lastAssistantMessageExcerpt : Option String
  state : ChildSessionState
deriving DecidableEq, Repr

/-- One durable child record (version field constant 2 in the source,
omitted). -/
structure ChildSessionRecord where
  registration : ChildSessionRegistration
  tracking : ChildSessionTracking
  lastDeliveredAssistantMessageID : Option String
  pendingForwardRequests : List PendingForwardRequest
deriving DecidableEq, Repr

/-- The sessions map of the store, as an association list keyed by child
session id (insertion order preserved, as for a JavaScript object). -/
abbrev RegistryStore := List (String × ChildSessionRecord)

/-- Raw lookup in the sessions map. -/
def getRecord (store : RegistryStore) (key : String) : Option ChildSessionRecord :=
  (store.find? (fun e => e.1 == key)).map (fun e => e.2)

/-- Assignment in the sessions map: replace in place when the key exists,
append otherwise. -/
def setRecord (store : RegistryStore) (key : String) (record : ChildSessionRecord) : RegistryStore :=
  match store with
  | [] => [(key, record)]
  | e :: rest =>
    if e.1 == key then (key, record) :: rest
    else e :: setRecord rest key record

/-- createDefaultTracking. -/
def createDefaultTracking : ChildSessionTracking :=
  { lastPromptAt := none
    lastPromptAgent := none
    lastResultAt := none
    lastErrorAt := none
    lastAssistantMessageAt := none
    lastAssistantMessageExcerpt := none
    state := ChildSessionState.created }

/-- normalizePendingForwardRequests: in the typed embedding the per-field
defaults collapse and the function keeps exactly the entries with a nonempty
forward token, unchanged and in order. -/
def normalizePendingForwardRequests (raw : List PendingForwardRequest) : List PendingForwardRequest :=
  raw.filter (fun r => r.forwardToken ≠ "")

/-- normalizeRecord: force the keyed child session id into the registration
and normalize the pending queue; all other fields are present in the typed
embedding so their defaulting collapses to the identity. -/
def normalizeRecord (childSessionID : String) (record : ChildSessionRecord) : ChildSessionRecord :=
  { registration := { record.registration with childSessionID := childSessionID }
    tracking := record.tracking
    lastDeliveredAssistantMessageID := record.lastDeliveredAssistantMessageID
    pendingForwardRequests := normalizePendingForwardRequests record.pendingForwardRequests }

/-- readRecord: raw lookup followed by normalization. -/
def readRecord (store : RegistryStore) (childSessionID : String) : Option ChildSessionRecord :=
  (getRecord store childSessionID).map (normalizeRecord childSessionID)

/-- writeRecord: normalization followed by assignment. -/
def writeRecord (store : RegistryStore) (childSessionID : String)
    (record : ChildSessionRecord) : RegistryStore :=
  setRecord store childSessionID (normalizeRecord childSessionID record)

/-- registerChildSession (record form): refuse when the orchestrator id is
empty or is itself a key of the sessions map; otherwise write a record that
keeps the createdAt, tracking, last delivered id and pending queue of any
existing record for the same child, fills the orchestrator directory from the
existing record when the input leaves it null, and takes every other
registration field from the input. -/
def registerChildSession (store : RegistryStore) (input : ChildSessionRegistration) : RegistryStore :=
  if input.orchestratorSessionID = "" then store
  else if (getRecord store input.orchestratorSessionID).isSome then store
  else
    let existing := getRecord store input.childSessionID
    let createdAt := match existing with
      | some e => e.registration.createdAt
      | none => input.createdAt
    let record : ChildSessionRecord :=
      { registration :=
          { input with
            orchestratorDirectory :=
              match input.orchestratorDirectory with
              | some d => some d
              | none => (existing.map (fun e => e.registration.orchestratorDirectory)).getD none
            createdAt := createdAt }
        tracking := match existing with
          | some e => e.tracking
          | none => createDefaultTracking
        lastDeliveredAssistantMessageID :=
          ((existing.map (fun e => e.lastDeliveredAssistantMessageID)).getD none)
        pendingForwardRequests :=
          (existing.map (fun e => e.pendingForwardRequests)).getD [] }
    writeRecord store input.childSessionID record

/-- markPromptSent. -/
def markPromptSent (store : RegistryStore) (childSessionID : String) (at_ : Int)
    (agent : Option String) : RegistryStore :=
  match readRecord store childSessionID with
  | none => store
  | some record =>
    writeRecord store childSessionID
      { record with tracking :=
          { record.tracking with
            lastPromptAt := some at_
            lastPromptAgent := agent
            state := ChildSessionState.prompt_sent } }

/-- markResultReceived. -/
def markResultReceived (store : RegistryStore) (childSessionID : String) (at_ : Int)
    (assistantExcerpt : Option String) : RegistryStore :=
  match readRecord store childSessionID with
  | none => store
  | some record =>
    writeRecord store childSessionID
      { record with tracking :=
          { record.tracking with
            lastResultAt := some at_
            lastAssistantMessageAt := some at_
            lastAssistantMessageExcerpt := assistantExcerpt
            state := ChildSessionState.result_received } }

/-- markError. -/
def markError (store : RegistryStore) (childSessionID : String) (at_ : Int)
    (assistantExcerpt : Option String) : RegistryStore :=
  match readRecord store childSessionID with
  | none => store
  | some record =>
    writeRecord store childSessionID
      { record with tracking :=
          { record.tracking with
            lastErrorAt := some at_
            lastAssistantMessageAt := some at_
            lastAssistantMessageExcerpt := assistantExcerpt
            state := ChildSessionState.error } }

/-- recordObservedAssistantMessage. -/
def recordObservedAssistantMessage (store : RegistryStore) (childSessionID : String) (at_ : Int)
    (assistantExcerpt : Option String) : RegistryStore :=
  match readRecord store childSessionID with
  | none => store
  | some record =>
    writeRecord store childSessionID
      { record with tracking :=
          { record.tracking with
            lastAssistantMessageAt := some at_
            lastAssistantMessageExcerpt := assistantExcerpt } }

/-- getOrchestratorSessionID. -/
def getOrchestratorSessionID (store : RegistryStore) (childSessionID : String) : Option String :=
  (readRecord store childSessionID).map (fun r => r.registration.orchestratorSessionID)

/-- getOrchestratorDirectory. -/
def getOrchestratorDirectory (store : RegistryStore) (childSessionID : String) : Option String :=
  (readRecord store childSessionID).bind (fun r => r.registration.orchestratorDirectory)

/-- isTrackedChildSession: the orchestrator id lookup does not come back
null. -/
def isTrackedChildSession (store : RegistryStore) (childSessionID : String) : Bool :=
  (getOrchestratorSessionID store childSessionID).isSome

/-- isNestedOrchestrator. -/
def isNestedOrchestrator (store : RegistryStore) (orchestratorSessionID : String) : Bool :=
  isTrackedChildSession store orchestratorSessionID

/-- getChildWorkspaceDirectory. -/
def getChildWorkspaceDirectory (store : RegistryStore) (childSessionID : String) : Option String :=
  (readRecord store childSessionID).bind (fun r => r.registration.workspaceDirectory)

/-- getLastPromptAgent. -/
def getLastPromptAgent (store : RegistryStore) (childSessionID : String) : Option String :=
  (readRecord store childSessionID).bind (fun r => r.tracking.lastPromptAgent)

/-- getLastDeliveredAssistantMessageID. -/
def getLastDeliveredAssistantMessageID (store : RegistryStore) (childSessionID : String) : Option String :=
  (readRecord store childSessionID).bind (fun r => r.lastDeliveredAssistantMessageID)

/-- setLastDeliveredAssistantMessageID. -/
def setLastDeliveredAssistantMessageID (store : RegistryStore) (childSessionID : String)
    (messageID : String) : RegistryStore :=
  match readRecord store childSessionID with
  | none => store
  | some record =>
    writeRecord store childSessionID
      { record with lastDeliveredAssistantMessageID := some messageID }

/-- enqueuePendingForwardRequest: append at the back. -/
def enqueuePendingForwardRequest (store : RegistryStore) (childSessionID : String)
    (request : PendingForwardRequest) : RegistryStore :=
  match readRecord store childSessionID with
  | none => store
  | some record =>
    writeRecord store childSessionID
      { record with pendingForwardRequests := record.pendingForwardRequests ++ [request] }

/-- peekPendingForwardRequest: the front of the queue. -/
def peekPendingForwardRequest (store : RegistryStore) (childSessionID : String) :
    Option PendingForwardRequest :=
  (readRecord store childSessionID).bind (fun r => r.pendingForwardRequests.head?)

/-- shiftPendingForwardRequest: pop the front of the queue, returning the
updated store and the popped request. -/
def shiftPendingForwardRequest (store : RegistryStore) (childSessionID : String) :
    RegistryStore × Option PendingForwardRequest :=
  match readRecord store childSessionID with
  | none => (store, none)
  | some record =>
    match record.pendingForwardRequests with
    | [] => (store, none)
    | first :: rest =>
      (writeRecord store childSessionID { record with pendingForwardRequests := rest }, some first)

/-- hasPendingForwardRequests: peek does not come back null. -/
def hasPendingForwardRequests (store : RegistryStore) (childSessionID : String) : Bool :=
  (peekPendingForwardRequest store childSessionID).isSome

/-- removePendingForwardRequest: drop the entries carrying the token, report
whether anything was dropped (no write when nothing matched). -/
def removePendingForwardRequest (store : RegistryStore) (childSessionID : String)
    (forwardToken : String) : RegistryStore × Bool :=
  match readRecord store childSessionID with
  | none => (store, false)
  | some record =>
    let next := record.pendingForwardRequests.filter (fun r => r.forwardToken ≠ forwardToken)
    if next.length = record.pendingForwardRequests.length then (store, false)
    else (writeRecord store childSessionID { record with pendingForwardRequests := next }, true)

/-- Metadata snapshot returned by getChildSessionMetadata: registration plus
tracking. -/
structure ChildSessionMetadata where
  registration : ChildSessionRegistration
  tracking : ChildSessionTracking
deriving DecidableEq, Repr

/-- getChildSessionMetadata. -/
def getChildSessionMetadata (store : RegistryStore) (childSessionID : String) :
    Option ChildSessionMetadata :=
  (readRecord store childSessionID).map (fun r => ⟨r.registration, r.tracking⟩)

/-- computeLastActivityAt: maximum of createdAt and the present tracking
timestamps. -/
def computeLastActivityAt (store : RegistryStore) (childSessionID : String) : Option Int :=
  match readRecord store childSessionID with
  | none => none
  | some record =>
    let candidates :=
      [record.registration.createdAt] ++
        (record.tracking.lastPromptAt.map (fun x => [x])).getD [] ++
        (record.tracking.lastResultAt.map (fun x => [x])).getD [] ++
        (record.tracking.lastErrorAt.map (fun x => [x])).getD [] ++
        (record.tracking.lastAssistantMessageAt.map (fun x => [x])).getD []
    some (candidates.foldl max record.registration.createdAt)

/-! ## Tool surface

Each tool execute body becomes a pure function from the caller context, the
arguments, the registry store and an oracle describing the host replies to a
triple of tool response, updated store and the list of host-visible effects
it performed, in order. -/

/-- Host-visible effects a tool run performs. -/
inductive ToolEffect where
  | provisionWorkspace (orchestratorSessionID title : String)
  | hostCreateSession (directory : String) (title : String)
  | cleanupWorkspace (directory : String)
  | fetchMessages (sessionID : String)
  | promptAsyncDispatch (sessionID : String) (text : String) (agent : Option String)
  | hostStatus
deriving DecidableEq, Repr

/-- Response object of the session_create tool (before JSON
stringification). -/
structure CreateResponse where
  status : String
  sessionID : Option String := none
  title : Option String := none
  directory : Option String := none
  error : Option String := none
deriving DecidableEq, Repr

/-- Host replies consumed by one session_create run: the provisioned
workspace and the outcome of the host session.create call (id and title on
success). -/
structure CreateEnv where
  workspaceDirectory : String
  workspaceBranch : Option String
  createResult : Option (String × String)
  now : Int
deriving DecidableEq, Repr

/-- createSessionCreateTool execute: nested-orchestrator guard, workspace
provisioning, host create (with best-effort cleanup of an isolated workspace
on failure), then registration of the child. -/
def sessionCreateExec (store : RegistryStore) (callerSessionID callerDirectory title : String)
    (env : CreateEnv) : CreateResponse × RegistryStore × List ToolEffect :=
  if isNestedOrchestrator store callerSessionID then
    ({ status := "error"
       error := some "Nested orchestrators are not supported. Use session_create from the root orchestrator session." },
      store, [])
  else
    let provision := ToolEffect.provisionWorkspace callerSessionID title
    let hostCreate := ToolEffect.hostCreateSession env.workspaceDirectory title
    match env.createResult with
    | none =>
      let cleanup :=
        if env.workspaceDirectory ≠ callerDirectory then
          [ToolEffect.cleanupWorkspace env.workspaceDirectory]
        else []
      ({ status := "error", error := some "Unknown error" },
        store, [provision, hostCreate] ++ cleanup)
    | some (childID, childTitle) =>
      let store1 := registerChildSession store
        { childSessionID := childID
          orchestratorSessionID := callerSessionID
          orchestratorDirectory := none
          title := childTitle
          createdAt := env.now
          workspaceDirectory := some env.workspaceDirectory
          workspaceBranch := env.workspaceBranch }
      ({ status := "created"
         sessionID := some childID
         title := some childTitle
         directory := some env.workspaceDirectory },
        store1, [provision, hostCreate])

/-- Response object of the session_prompt tool. -/
structure PromptResponse where
  status : String
  sessionID : String
  agent : Option String := none
  forwardToken : Option String := none
  rewrittenCount : Option Nat := none
  rewriteError : Option String := none
  error : Option String := none
deriving DecidableEq, Repr

/-- Host replies consumed by one session_prompt run: the generated forward
token (a fresh UUID in the source), the child messages available when
capturing the trigger marker (none when that host call fails), the outcome
of the path rewriter when both directories are present, and the outcome of
the promptAsync dispatch. -/
structure PromptEnv where
  forwardToken : String
  now : Int
  markerMessages : Option (List SessionMessage)
  rewriteResult : String × Nat × Option String
  promptError : Option String
deriving Repr

/-- appendForwardTokenInstruction: the instruction block directing the child
to end its final reply with the token line. -/
def appendForwardTokenInstruction (prompt forwardToken : String) : String :=
  jsJoinNl
    [prompt, "",
     "When you are completely finished, append a final line exactly:",
     buildTokenLine forwardToken,
     "Do not include that token line anywhere else."]

/-- preparePromptForChildSession: the prompt passes through unchanged unless
both the orchestrator and the child workspace directories are known, in
which case the peripheral path rewriter runs (its outcome is an oracle
input). -/
def preparePromptForChildSession (prompt : String) (orchestratorDirectory : Option String)
    (childWorkspaceDirectory : Option String) (rewriteResult : String × Nat × Option String) :
    String × Nat × Option String :=
  match orchestratorDirectory, childWorkspaceDirectory with
  | some _, some _ => rewriteResult
  | _, _ => (prompt, 0, none)

/-- createSessionPromptTool execute (the forwarding variant): nested guard,
path preparation, trigger-marker capture, pending-request enqueue, token
instruction append, asynchronous dispatch; on dispatch failure the pending
request is removed by token, on success the prompt-sent transition is
recorded for tracked children. -/
def sessionPromptExec (store : RegistryStore) (callerSessionID : String)
    (argSessionID prompt : String) (agent : Option String) (env : PromptEnv) :
    PromptResponse × RegistryStore × List ToolEffect :=
  if isNestedOrchestrator store callerSessionID then
    ({ status := "error"
       sessionID := argSessionID
       error := some "Nested orchestrators are not supported. Use session_prompt from the root orchestrator session." },
      store, [])
  else
    let childWorkspaceDirectory := getChildWorkspaceDirectory store argSessionID
    let orchestratorDirectory := getOrchestratorDirectory store argSessionID
    let prepared := preparePromptForChildSession prompt orchestratorDirectory
      childWorkspaceDirectory env.rewriteResult
    let marker :=
      match env.markerMessages with
      | none => ((none : Option Int), (none : Option String))
      | some msgs => (some (createTriggerMarker msgs).1, (createTriggerMarker msgs).2)
    let store1 := enqueuePendingForwardRequest store argSessionID
      { forwardToken := env.forwardToken
        createdAt := env.now
        afterMessageCount := marker.1
        afterAssistantMessageID := marker.2 }
    let promptWithToken := appendForwardTokenInstruction prepared.1 env.forwardToken
    let effects := [ToolEffect.fetchMessages argSessionID,
      ToolEffect.promptAsyncDispatch argSessionID promptWithToken agent]
    match env.promptError with
    | some e =>
      let store2 := (removePendingForwardRequest store1 argSessionID env.forwardToken).1
      ({ status := "error"
         sessionID := argSessionID
         error := some (truncateText e 2000) },
        store2, effects)
    | none =>
      let store2 :=
        if isTrackedChildSession store1 argSessionID then
          markPromptSent store1 argSessionID env.now agent
        else store1
      ({ status := "prompt_sent"
         sessionID := argSessionID
         agent := agent
         forwardToken := some env.forwardToken
         rewrittenCount := some prepared.2.1
         rewriteError := prepared.2.2 },
        store2, effects)

/-- Derived progress of a child session, computed by the session_status
tool. -/
def computeProgress (state : ChildSessionState) (isBusy : Bool) : String :=
  if state = ChildSessionState.result_received ∨ state = ChildSessionState.error then "done"
  else if isBusy then "running"
  else "pending"

/-- Response object of the session_status tool (the two plan-first flags of
the response come from a registry variant with no counterpart in the durable
registry and are omitted). -/
structure StatusResponse where
  status : String
  sessionID : Option String := none
  orchestratorSessionID : Option String := none
  title : Option String := none
  state : Option ChildSessionState := none
  progress : Option String := none
  statusType : Option String := none
  createdAt : Option Int := none
  lastPromptAt : Option Int := none
  lastResultAt : Option Int := none
  lastErrorAt : Option Int := none
  lastAssistantMessageAt : Option Int := none
  lastAssistantMessageExcerpt : Option String := none
  lastActivityAt : Option Int := none
  workspaceDirectory : Option String := none
  workspaceBranch : Option String := none
  error : Option String := none
deriving DecidableEq, Repr

/-- Host replies consumed by one session_status run: the status type the
host reports for the child, the child messages fetched on refresh (none when
that call fails), and the clock. -/
structure StatusEnv where
  statusType : Option String
  refreshMessages : Option (List SessionMessage)
  now : Int
deriving Repr

/-- Latest assistant message of a raw message list (scan from the end),
shared by the status tool and the idle handlers. -/
def findLatestAssistantMessage (messages : List SessionMessage) : Option SessionMessage :=
  messages.reverse.find? (fun m => m.info.role == "assistant")

/-- createSessionStatusTool execute: unknown-child and ownership guards,
metadata lookup, busy probe, optional excerpt refresh from the latest
assistant message, then the snapshot response. -/
def sessionStatusExec (store : RegistryStore) (callerSessionID argSessionID : String)
    (refresh : Option Bool) (env : StatusEnv) :
    StatusResponse × RegistryStore × List ToolEffect :=
  match getOrchestratorSessionID store argSessionID with
  | none =>
    ({ status := "error", error := some "Unknown child session ID.", sessionID := some argSessionID },
      store, [])
  | some orchestratorSessionID =>
    if orchestratorSessionID ≠ callerSessionID then
      ({ status := "error"
         error := some "Child session does not belong to this orchestrator session."
         sessionID := some argSessionID
         orchestratorSessionID := some orchestratorSessionID },
        store, [])
    else
      match getChildSessionMetadata store argSessionID with
      | none =>
        ({ status := "error"
           error := some "Child session is tracked but metadata is missing."
           sessionID := some argSessionID },
          store, [])
      | some _ =>
        let isBusy := env.statusType == some "busy"
        let refreshEffects :=
          if refresh = some true then [ToolEffect.fetchMessages argSessionID] else []
        let store1 :=
          if refresh = some true then
            match env.refreshMessages with
            | none => store
            | some msgs =>
              match findLatestAssistantMessage msgs with
              | none => store
              | some latest =>
                recordObservedAssistantMessage store argSessionID env.now
                  (some (truncateText (extractTextFromParts latest.parts) 400))
          else store
        match getChildSessionMetadata store1 argSessionID with
        | none =>
          ({ status := "error"
             error := some "Child session is tracked but metadata is missing."
             sessionID := some argSessionID },
            store1, [ToolEffect.hostStatus] ++ refreshEffects)
        | some updated =>
          ({ status := "ok"
             sessionID := some updated.registration.childSessionID
             orchestratorSessionID := some updated.registration.orchestratorSessionID
             title := some updated.registration.title
             state := some updated.tracking.state
             progress := some (computeProgress updated.tracking.state isBusy)
             statusType := env.statusType
             createdAt := some updated.registration.createdAt
             lastPromptAt := updated.tracking.lastPromptAt
             lastResultAt := updated.tracking.lastResultAt
             lastErrorAt := updated.tracking.lastErrorAt
             lastAssistantMessageAt := updated.tracking.lastAssistantMessageAt
             lastAssistantMessageExcerpt := updated.tracking.lastAssistantMessageExcerpt
             lastActivityAt := computeLastActivityAt store1 argSessionID
             workspaceDirectory := updated.registration.workspaceDirectory
             workspaceBranch := updated.registration.workspaceBranch },
            store1, [ToolEffect.hostStatus] ++ refreshEffects)

/-! ## Error forwarding and stable-idle delivery -/

/-- One synthetic message posted into the orchestrator session. -/
structure PostedMessage where
  sessionID : String
  text : String
  status : String
  assistantMessageID : Option String := none
  forwardToken : Option String := none
deriving DecidableEq, Repr

/-- ChildSessionErrorForwarder.handleSessionError: mark the child errored;
then, only when a pending forward request exists, shift the oldest one and
post a single synthetic error message carrying its forward token (the error
text argument stands for the stringified host error). -/
def handleSessionError (store : RegistryStore) (childSessionID errorText : String) (now : Int) :
    RegistryStore × List PostedMessage :=
  match getOrchestratorSessionID store childSessionID with
  | none => (store, [])
  | some orchestratorSessionID =>
    let store1 := markError store childSessionID now (some (truncateText errorText 400))
    if hasPendingForwardRequests store1 childSessionID then
      let shifted := shiftPendingForwardRequest store1 childSessionID
      match shifted.2 with
      | none => (shifted.1, [])
      | some delivered =>
        (shifted.1,
          [{ sessionID := orchestratorSessionID
             text := "[Child session " ++ childSessionID ++ " error]\n\n" ++ errorText
             status := "error"
             forwardToken := some delivered.forwardToken }])
    else (store1, [])

/-- Oracle inputs of one stable-idle run: whether the host still reports the
child busy, the normalized child messages the host returns (none when the
fetch fails), the outcome of the peripheral question detector on the
forwarded text, and the clock. -/
structure IdleEnv where
  busy : Bool
  messages : Option (List SessionMessage)
  questionsText : Option String
  now : Int
deriving Repr

/-- Modelled from the spec: the correlation-forwarding variant of
handleStableIdle is not part of the source tree (only its tests, its callers
and two superseded variants are), so this definition follows section 4.E of
the specification word for word. Peek the oldest pending forward request and
return when there is none; return when the host still reports the child
busy or the message fetch fails; resolve the forwardable assistant message
with the peeked request and return when none matches; otherwise shift the
pending request, skip silently when the resolved message id equals the last
delivered one, and else post the synthetic forwarded message (header label
plan or completed from the last prompt agent, body the cleaned text, the
request token in the metadata), post a second questions message when the
detector fires, then set the last delivered id and record the result with a
400-character excerpt. -/
def handleStableIdle (store : RegistryStore) (childID : String) (env : IdleEnv) :
    RegistryStore × List PostedMessage :=
  match peekPendingForwardRequest store childID with
  | none => (store, [])
  | some request =>
    if env.busy then (store, [])
    else
      match env.messages with
      | none => (store, [])
      | some msgs =>
        match findForwardableAssistantMessage msgs request with
        | none => (store, [])
        | some found =>
          let store1 := (shiftPendingForwardRequest store childID).1
          if getLastDeliveredAssistantMessageID store1 childID == some found.assistantMessageID then
            (store1, [])
          else
            let orch := (getOrchestratorSessionID store1 childID).getD ""
            let label :=
              if getLastPromptAgent store1 childID == some "plan" then "plan" else "completed"
            let mainMessage : PostedMessage :=
              { sessionID := orch
                text := "[Child session " ++ childID ++ " " ++ label ++ "]\n\n" ++ found.text
                status := label
                assistantMessageID := some found.assistantMessageID
                forwardToken := some request.forwardToken }
            let posted :=
              match env.questionsText with
              | some q =>
                [mainMessage,
                 { sessionID := orch
                   text := "[Child session " ++ childID ++ " questions]\n\n" ++ q
                   status := "questions"
                   assistantMessageID := some found.assistantMessageID }]
              | none => [mainMessage]
            let store2 := setLastDeliveredAssistantMessageID store1 childID found.assistantMessageID
            let store3 := markResultReceived store2 childID env.now
              (some (truncateText found.text 400))
            (store3, posted)

/-- Pending queue of a child as read back through the registry (empty when
the child is unknown). -/
def pendingQueue (store : RegistryStore) (childSessionID : String) : List PendingForwardRequest :=
  ((readRecord store childSessionID).map (fun r => r.pendingForwardRequests)).getD []

/-- Tracking of a child as read back through the registry. -/
def trackingOf (store : RegistryStore) (childSessionID : String) : Option ChildSessionTracking :=
  (readRecord store childSessionID).map (fun r => r.tracking)

/-- Tokens of every request in the raw stored queue of a child are
nonempty — the data model constraint on forward tokens (they are freshly
generated UUIDs). Under it the queue normalization performed on every read
and write is the identity. -/
def queueTokensNonempty (store : RegistryStore) (childSessionID : String) : Prop :=
  ∀ record, getRecord store childSessionID = some record →
    ∀ r ∈ record.pendingForwardRequests, r.forwardToken ≠ ""

/-! ## Store lemmas -/

theorem getRecord_cons (e : String × ChildSessionRecord) (rest : RegistryStore) (key : String) :
    getRecord (e :: rest) key = if e.1 = key then some e.2 else getRecord rest key := by
  by_cases h : e.1 = key
  · simp [getRecord, List.find?_cons_of_pos, h]
  · simp [getRecord, List.find?_cons_of_neg, h]

theorem getRecord_setRecord_self (store : RegistryStore) (key : String)
    (record : ChildSessionRecord) :
    getRecord (setRecord store key record) key = some record := by
  induction store with
  | nil => simp [getRecord, setRecord]
  | cons e rest ih =>
    by_cases h : e.1 = key
    · simp [setRecord, h, getRecord_cons]
    · simp only [setRecord, beq_iff_eq, h, if_false]
      rw [getRecord_cons]
      simp [h, ih]

theorem getRecord_setRecord_ne (store : RegistryStore) (key other : String)
    (record : ChildSessionRecord) (h : other ≠ key) :
    getRecord (setRecord store key record) other = getRecord store other := by
  induction store with
  | nil => simp [getRecord, setRecord, List.find?_cons_of_neg, Ne.symm h]
  | cons e rest ih =>
    by_cases he : e.1 = key
    · simp only [setRecord, beq_iff_eq, he, if_true]
      rw [getRecord_cons, getRecord_cons]
      simp [he, Ne.symm h]
    · simp only [setRecord, beq_iff_eq, he, if_false]
      rw [getRecord_cons, getRecord_cons, ih]

theorem normalizePendingForwardRequests_of_nonempty (l : List PendingForwardRequest)
    (h : ∀ r ∈ l, r.forwardToken ≠ "") :
    normalizePendingForwardRequests l = l := by
  unfold normalizePendingForwardRequests
  apply List.filter_eq_self.mpr
  intro r hr
  simpa using h r hr

/-! ## Resolver: last-match characterization

The scanning loop of findForwardableAssistantMessage keeps overwriting its
accumulator with the latest qualifying message, so its outcome is the first
match of the reversed suffix. -/

theorem foldl_pick_last {α β : Type} (p : α → Bool) (f : α → β) (l : List α)
    (init : Option β) :
    l.foldl (fun found x => if p x then some (f x) else found) init
      = match l.reverse.find? p with
        | some x => some (f x)
        | none => init := by
  induction l using List.reverseRecOn generalizing init with
  | nil => simp
  | append_singleton l a ih =>
    rw [List.foldl_append, List.reverse_append]
    simp only [List.foldl_cons, List.foldl_nil, List.reverse_cons, List.reverse_nil,
      List.nil_append, List.singleton_append]
    by_cases h : p a
    · rw [List.find?_cons_of_pos _ h]
      simp [h]
    · rw [List.find?_cons_of_neg _ h]
      simp only [h, Bool.false_eq_true, if_false]
      exact ih init

theorem findForwardableAssistantMessage_eq_find (messages : List SessionMessage)
    (request : PendingForwardRequest) :
    findForwardableAssistantMessage messages request
      = ((messages.drop (resolveStartIndex messages request)).reverse.find?
          (isForwardableMessage request.forwardToken)).map
          (fun m => (⟨m.info.id, cleanedTextOf request.forwardToken m⟩ :
            ForwardableAssistantMessage)) := by
  rw [findForwardableAssistantMessage,
    foldl_pick_last (isForwardableMessage request.forwardToken)
      (fun m => (⟨m.info.id, cleanedTextOf request.forwardToken m⟩ : ForwardableAssistantMessage))]
  cases (messages.drop (resolveStartIndex messages request)).reverse.find?
      (isForwardableMessage request.forwardToken) <;> simp

/-! ## Claim C2 — start index resolution -/

/-- Claim C2, counterexample: one assistant message with id a; the request
carries afterMessageCount 2 (present and exceeding the list length 1)
together with afterAssistantMessageID a, which occurs at index 0. The claim
says the anchor is still consulted, so the start index would be 0 + 1 = 1;
the code returns 0 without consulting it. -/
theorem C2_counterexample :
    resolveStartIndex [⟨⟨"assistant", "a"⟩, []⟩]
        { forwardToken := "t", createdAt := 0,
          afterMessageCount := some 2, afterAssistantMessageID := some "a" } = 0
      ∧ List.findIdx? (fun m => m.info.id == "a")
          ([⟨⟨"assistant", "a"⟩, []⟩] : List SessionMessage) = some 0
      ∧ (0 : Nat) ≠ 0 + 1 := by
  refine ⟨by decide, by decide, by decide⟩

/-- Claim C2, amended: a present nonnegative afterMessageCount always
decides the start index — the count itself when at most the list length,
otherwise 0, the id anchor not being consulted; only a missing (or negative)
count falls back to the anchor, which yields the found index plus one and 0
in every remaining case. -/
theorem C2_resolveStartIndex_characterization :
    (∀ (msgs : List SessionMessage) (req : PendingForwardRequest) (c : Int),
        req.afterMessageCount = some c → 0 ≤ c → c ≤ (msgs.length : Int) →
        resolveStartIndex msgs req = c.toNat)
    ∧ (∀ (msgs : List SessionMessage) (req : PendingForwardRequest) (c : Int),
        req.afterMessageCount = some c → 0 ≤ c → (msgs.length : Int) < c →
        resolveStartIndex msgs req = 0)
    ∧ (∀ (msgs : List SessionMessage) (req : PendingForwardRequest),
        (req.afterMessageCount = none ∨ ∃ c, req.afterMessageCount = some c ∧ c < 0) →
        ((∀ id idx, req.afterAssistantMessageID = some id → id ≠ "" →
            msgs.findIdx? (fun m => m.info.id == id) = some idx →
            resolveStartIndex msgs req = idx + 1)
          ∧ ((req.afterAssistantMessageID = none ∨ req.afterAssistantMessageID = some "" ∨
                ∃ id, req.afterAssistantMessageID = some id ∧
                  msgs.findIdx? (fun m => m.info.id == id) = none) →
              resolveStartIndex msgs req = 0))) := by
  refine ⟨?_, ?_, ?_⟩
  · intro msgs req c hc h0 hle
    simp [resolveStartIndex, hc, h0, hle]
  · intro msgs req c hc h0 hlt
    simp [resolveStartIndex, hc, h0, not_le.mpr hlt]
  · intro msgs req hneg
    have hanchor : resolveStartIndex msgs req = resolveAnchorIndex msgs req := by
      rcases hneg with h | ⟨c, hc, hcneg⟩
      · simp [resolveStartIndex, h]
      · simp [resolveStartIndex, hc, not_le.mpr hcneg]
    constructor
    · intro id idx hid hne hfind
      rw [hanchor]
      simp [resolveAnchorIndex, hid, hne, hfind]
    · intro h
      rw [hanchor]
      rcases h with h | h | ⟨id, hid, hfind⟩
      · simp [resolveAnchorIndex, h]
      · simp [resolveAnchorIndex, h]
      · by_cases hne : id = ""
        · simp [resolveAnchorIndex, hid, hne]
        · simp [resolveAnchorIndex, hid, hne, hfind]

/-- Claim C2, witness: instances of the three cases of the amended
characterization at concrete inputs. -/
theorem C2_resolveStartIndex_characterization_witness :
    resolveStartIndex [⟨⟨"assistant", "a"⟩, []⟩]
        { forwardToken := "t", createdAt := 0,
          afterMessageCount := some 1, afterAssistantMessageID := none } = (1 : Int).toNat
      ∧ resolveStartIndex [⟨⟨"assistant", "a"⟩, []⟩]
        { forwardToken := "t", createdAt := 0,
          afterMessageCount := some 5, afterAssistantMessageID := some "a" } = 0
      ∧ resolveStartIndex [⟨⟨"assistant", "a"⟩, []⟩]
        { forwardToken := "t", createdAt := 0,
          afterMessageCount := none, afterAssistantMessageID := some "a" } = 0 + 1 := by
  refine ⟨?_, ?_, ?_⟩
  · exact C2_resolveStartIndex_characterization.1 _ _ 1 rfl (by decide) (by decide)
  · exact C2_resolveStartIndex_characterization.2.1 _ _ 5 rfl (by decide) (by decide)
  · exact (C2_resolveStartIndex_characterization.2.2 _ _ (Or.inl rfl)).1 "a" 0 rfl
      (by decide) (by decide)

/-! ## Claim C1 — forwardable assistant message resolution -/

/-- Claim C1, counterexample: a single assistant message whose only text
line is "results opencode_cc_forward_token: T". No line of the extracted
text equals the token line, so under the claim no assistant message
qualifies and the resolver would return none; the code tests substring
containment and returns the message, with the token text still embedded in
the cleaned output. -/
theorem C1_counterexample :
    findForwardableAssistantMessage
        [⟨⟨"assistant", "a1"⟩, [⟨"text", some "results opencode_cc_forward_token: T", none⟩]⟩]
        { forwardToken := "T", createdAt := 0,
          afterMessageCount := none, afterAssistantMessageID := none }
      = some ⟨"a1", "results opencode_cc_forward_token: T"⟩
    ∧ (jsSplitNl (extractTextFromParts
          [⟨"text", some "results opencode_cc_forward_token: T", none⟩])).all
        (fun l => l != buildTokenLine "T") = true := by
  exact ⟨by decide, by decide⟩

/-- Claim C1, amended: the resolver returns the last assistant message at
index at least the start index whose extracted text contains the token line
as a substring (not necessarily as an exact line) and is still nonempty once
the lines trimming to the token line are stripped; it returns none exactly
when no message of the scanned suffix qualifies; and the returned text is
the trim of the lines of the extracted text whose trimmed content differs
from the token line, joined in their original order. -/
theorem C1_forwardable_resolution (messages : List SessionMessage)
    (request : PendingForwardRequest) :
    (findForwardableAssistantMessage messages request
      = ((messages.drop (resolveStartIndex messages request)).reverse.find?
          (isForwardableMessage request.forwardToken)).map
          (fun m => (⟨m.info.id, cleanedTextOf request.forwardToken m⟩ :
            ForwardableAssistantMessage)))
    ∧ (findForwardableAssistantMessage messages request = none ↔
        ∀ m ∈ messages.drop (resolveStartIndex messages request),
          isForwardableMessage request.forwardToken m = false)
    ∧ (∀ r, findForwardableAssistantMessage messages request = some r →
        ∃ m, m ∈ messages.drop (resolveStartIndex messages request) ∧
          isForwardableMessage request.forwardToken m = true ∧
          r.assistantMessageID = m.info.id ∧
          r.text = jsTrim (jsJoinNl ((jsSplitNl (extractTextFromParts m.parts)).filter
            (fun l => jsTrim l != buildTokenLine request.forwardToken)))) := by
  have hmain := findForwardableAssistantMessage_eq_find messages request
  refine ⟨hmain, ?_, ?_⟩
  · rw [hmain]
    constructor
    · intro h m hm
      rcases hfind : (messages.drop (resolveStartIndex messages request)).reverse.find?
          (isForwardableMessage request.forwardToken) with _ | m0
      · have := List.find?_eq_none.mp hfind m (by simpa using hm)
        simpa using this
      · rw [hfind] at h
        simp at h
    · intro h
      rcases hfind : (messages.drop (resolveStartIndex messages request)).reverse.find?
          (isForwardableMessage request.forwardToken) with _ | m0
      · simp
      · have hmem := List.mem_of_find?_eq_some hfind
        have hp := List.find?_some hfind
        have := h m0 (by simpa using hmem)
        rw [this] at hp
        simp at hp
  · intro r hr
    rw [hmain] at hr
    rcases hfind : (messages.drop (resolveStartIndex messages request)).reverse.find?
        (isForwardableMessage request.forwardToken) with _ | m
    · rw [hfind] at hr
      simp at hr
    · rw [hfind] at hr
      rw [show Option.map
          (fun m => (⟨m.info.id, cleanedTextOf request.forwardToken m⟩ :
            ForwardableAssistantMessage)) (some m)
          = some ⟨m.info.id, cleanedTextOf request.forwardToken m⟩ from rfl] at hr
      rw [Option.some_inj] at hr
      refine ⟨m, ?_, List.find?_some hfind, ?_, ?_⟩
      · simpa using List.mem_of_find?_eq_some hfind
      · rw [← hr]
      · rw [← hr]
        rfl

/-- Claim C1, witness: the amended characterization applied to the
happy-path message list (a scratch assistant turn, a tool turn, then the
token-tagged assistant reply), resolving the last message with the token
line stripped. -/
theorem C1_forwardable_resolution_witness :
    ∃ m, m ∈ ([⟨⟨"assistant", "s1"⟩, [⟨"text", some "scratch", none⟩]⟩,
        ⟨⟨"tool", "t1"⟩, [⟨"text", some "result", none⟩]⟩,
        ⟨⟨"assistant", "a3"⟩,
          [⟨"text", some "output\nopencode_cc_forward_token: T", none⟩]⟩] :
          List SessionMessage).drop
        (resolveStartIndex
          [⟨⟨"assistant", "s1"⟩, [⟨"text", some "scratch", none⟩]⟩,
           ⟨⟨"tool", "t1"⟩, [⟨"text", some "result", none⟩]⟩,
           ⟨⟨"assistant", "a3"⟩,
             [⟨"text", some "output\nopencode_cc_forward_token: T", none⟩]⟩]
          { forwardToken := "T", createdAt := 0,
            afterMessageCount := some 0, afterAssistantMessageID := none }) ∧
      isForwardableMessage "T" m = true ∧
      "a3" = m.info.id ∧
      "output" = jsTrim (jsJoinNl ((jsSplitNl (extractTextFromParts m.parts)).filter
        (fun l => jsTrim l != buildTokenLine "T"))) := by
  have h := (C1_forwardable_resolution
    [⟨⟨"assistant", "s1"⟩, [⟨"text", some "scratch", none⟩]⟩,
     ⟨⟨"tool", "t1"⟩, [⟨"text", some "result", none⟩]⟩,
     ⟨⟨"assistant", "a3"⟩,
       [⟨"text", some "output\nopencode_cc_forward_token: T", none⟩]⟩]
    { forwardToken := "T", createdAt := 0,
      afterMessageCount := some 0, afterAssistantMessageID := none }).2.2
    ⟨"a3", "output"⟩ (by decide)
  exact h

/-! ## Claim C5 — re-registration preserves prior state -/

/-- Claim C5: registering again over an existing record (with nonempty
orchestrator id that is not itself a registered child key) keeps the
original createdAt and leaves the stored tracking, last delivered assistant
message id and pending-forward queue untouched. -/
theorem C5_reregistration_preserves_state (store : RegistryStore)
    (input : ChildSessionRegistration) (R : ChildSessionRecord)
    (hexist : getRecord store input.childSessionID = some R)
    (horch : input.orchestratorSessionID ≠ "")
    (hguard : getRecord store input.orchestratorSessionID = none)
    (htok : ∀ r ∈ R.pendingForwardRequests, r.forwardToken ≠ "") :
    ∃ R2, getRecord (registerChildSession store input) input.childSessionID = some R2 ∧
      R2.registration.createdAt = R.registration.createdAt ∧
      R2.tracking = R.tracking ∧
      R2.lastDeliveredAssistantMessageID = R.lastDeliveredAssistantMessageID ∧
      R2.pendingForwardRequests = R.pendingForwardRequests := by
  unfold registerChildSession
  rw [if_neg horch, hguard]
  simp only [Option.isSome_none, Bool.false_eq_true, if_false, hexist]
  refine ⟨_, getRecord_setRecord_self _ _ _, rfl, rfl, rfl, ?_⟩
  exact normalizePendingForwardRequests_of_nonempty _ htok

/-- Claim C5, witness: re-registering a concrete child whose record already
carries a prompt-sent tracking state and one pending request keeps every
prior field. -/
theorem C5_reregistration_preserves_state_witness :
    ∃ R2,
      getRecord
          (registerChildSession
            [("c1",
              { registration :=
                  { childSessionID := "c1", orchestratorSessionID := "o1",
                    orchestratorDirectory := some "/repo", title := "first",
                    createdAt := 1000, workspaceDirectory := some "/w1",
                    workspaceBranch := some "b1" }
                tracking :=
                  { createDefaultTracking with
                    lastPromptAt := some 2000,
                    state := ChildSessionState.prompt_sent }
                lastDeliveredAssistantMessageID := some "m1"
                pendingForwardRequests :=
                  [{ forwardToken := "T", createdAt := 2000,
                     afterMessageCount := some 1, afterAssistantMessageID := none }] })]
            { childSessionID := "c1", orchestratorSessionID := "o1",
              orchestratorDirectory := none, title := "second",
              createdAt := 9999, workspaceDirectory := some "/w2",
              workspaceBranch := some "b2" })
          "c1" = some R2 ∧
      R2.registration.createdAt = 1000 ∧
      R2.tracking =
        { createDefaultTracking with
          lastPromptAt := some 2000, state := ChildSessionState.prompt_sent } ∧
      R2.lastDeliveredAssistantMessageID = some "m1" ∧
      R2.pendingForwardRequests =
        [{ forwardToken := "T", createdAt := 2000,
           afterMessageCount := some 1, afterAssistantMessageID := none }] := by
  obtain ⟨R2, h1, h2, h3, h4, h5⟩ := C5_reregistration_preserves_state
    [("c1",
      { registration :=
          { childSessionID := "c1", orchestratorSessionID := "o1",
            orchestratorDirectory := some "/repo", title := "first",
            createdAt := 1000, workspaceDirectory := some "/w1",
            workspaceBranch := some "b1" }
        tracking :=
          { createDefaultTracking with
            lastPromptAt := some 2000, state := ChildSessionState.prompt_sent }
        lastDeliveredAssistantMessageID := some "m1"
        pendingForwardRequests :=
          [{ forwardToken := "T", createdAt := 2000,
             afterMessageCount := some 1, afterAssistantMessageID := none }] })]
    { childSessionID := "c1", orchestratorSessionID := "o1",
      orchestratorDirectory := none, title := "second",
      createdAt := 9999, workspaceDirectory := some "/w2", workspaceBranch := some "b2" }
    { registration :=
        { childSessionID := "c1", orchestratorSessionID := "o1",
          orchestratorDirectory := some "/repo", title := "first",
          createdAt := 1000, workspaceDirectory := some "/w1",
          workspaceBranch := some "b1" }
      tracking :=
        { createDefaultTracking with
          lastPromptAt := some 2000, state := ChildSessionState.prompt_sent }
      lastDeliveredAssistantMessageID := some "m1"
      pendingForwardRequests :=
        [{ forwardToken := "T", createdAt := 2000,
           afterMessageCount := some 1, afterAssistantMessageID := none }] }
    (by decide) (by decide) (by decide) (by decide)
  exact ⟨R2, h1, h2, h3, h4, h5⟩

/-! ## Claim C6 — nested-orchestrator rejection -/

/-- Claim C6: registering with an empty orchestrator id or with an
orchestrator id that is itself a key of the sessions map leaves the store
unchanged; and the session_create and session_prompt tools invoked from a
registered child session return an error response, leave the store
unchanged and perform no host effect (no workspace provisioning, no
dispatch, hence no enqueued request). -/
theorem C6_nested_orchestrator_guard :
    (∀ (store : RegistryStore) (input : ChildSessionRegistration),
        input.orchestratorSessionID = "" → registerChildSession store input = store)
    ∧ (∀ (store : RegistryStore) (input : ChildSessionRegistration),
        (getRecord store input.orchestratorSessionID).isSome →
        registerChildSession store input = store)
    ∧ (∀ (store : RegistryStore) (caller callerDirectory title : String) (env : CreateEnv),
        isNestedOrchestrator store caller = true →
        (sessionCreateExec store caller callerDirectory title env).1.status = "error"
          ∧ (sessionCreateExec store caller callerDirectory title env).2.1 = store
          ∧ (sessionCreateExec store caller callerDirectory title env).2.2 = [])
    ∧ (∀ (store : RegistryStore) (caller argSessionID prompt : String)
        (agent : Option String) (env : PromptEnv),
        isNestedOrchestrator store caller = true →
        (sessionPromptExec store caller argSessionID prompt agent env).1.status = "error"
          ∧ (sessionPromptExec store caller argSessionID prompt agent env).2.1 = store
          ∧ (sessionPromptExec store caller argSessionID prompt agent env).2.2 = []) := by
  refine ⟨?_, ?_, ?_, ?_⟩
  · intro store input h
    unfold registerChildSession
    rw [if_pos h]
  · intro store input h
    unfold registerChildSession
    by_cases he : input.orchestratorSessionID = ""
    · rw [if_pos he]
    · rw [if_neg he, if_pos h]
  · intro store caller callerDirectory title env h
    unfold sessionCreateExec
    rw [if_pos h]
    exact ⟨rfl, rfl, rfl⟩
  · intro store caller argSessionID prompt agent env h
    unfold sessionPromptExec
    rw [if_pos h]
    exact ⟨rfl, rfl, rfl⟩

/-- Claim C6, witness: with child c1 registered under o1, registering a
child under empty or under c1 changes nothing, and both tools invoked from
c1 are rejected without effects. -/
theorem C6_nested_orchestrator_guard_witness :
    (registerChildSession
        [("c1",
          { registration :=
              { childSessionID := "c1", orchestratorSessionID := "o1",
                orchestratorDirectory := none, title := "c1", createdAt := 0,
                workspaceDirectory := none, workspaceBranch := none }
            tracking := createDefaultTracking
            lastDeliveredAssistantMessageID := none
            pendingForwardRequests := [] })]
        { childSessionID := "c2", orchestratorSessionID := "", orchestratorDirectory := none,
          title := "c2", createdAt := 0, workspaceDirectory := none, workspaceBranch := none }
      = [("c1",
          { registration :=
              { childSessionID := "c1", orchestratorSessionID := "o1",
                orchestratorDirectory := none, title := "c1", createdAt := 0,
                workspaceDirectory := none, workspaceBranch := none }
            tracking := createDefaultTracking
            lastDeliveredAssistantMessageID := none
            pendingForwardRequests := [] })])
    ∧ (registerChildSession
        [("c1",
          { registration :=
              { childSessionID := "c1", orchestratorSessionID := "o1",
                orchestratorDirectory := none, title := "c1", createdAt := 0,
                workspaceDirectory := none, workspaceBranch := none }
            tracking := createDefaultTracking
            lastDeliveredAssistantMessageID := none
            pendingForwardRequests := [] })]
        { childSessionID := "c2", orchestratorSessionID := "c1", orchestratorDirectory := none,
          title := "c2", createdAt := 0, workspaceDirectory := none, workspaceBranch := none }
      = [("c1",
          { registration :=
              { childSessionID := "c1", orchestratorSessionID := "o1",
                orchestratorDirectory := none, title := "c1", createdAt := 0,
                workspaceDirectory := none, workspaceBranch := none }
            tracking := createDefaultTracking
            lastDeliveredAssistantMessageID := none
            pendingForwardRequests := [] })])
    ∧ ((sessionCreateExec
          [("c1",
            { registration :=
                { childSessionID := "c1", orchestratorSessionID := "o1",
                  orchestratorDirectory := none, title := "c1", createdAt := 0,
                  workspaceDirectory := none, workspaceBranch := none }
              tracking := createDefaultTracking
              lastDeliveredAssistantMessageID := none
              pendingForwardRequests := [] })]
          "c1" "/repo" "task"
          { workspaceDirectory := "/w", workspaceBranch := none,
            createResult := some ("c2", "task"), now := 0 }).1.status = "error")
    ∧ ((sessionPromptExec
          [("c1",
            { registration :=
                { childSessionID := "c1", orchestratorSessionID := "o1",
                  orchestratorDirectory := none, title := "c1", createdAt := 0,
                  workspaceDirectory := none, workspaceBranch := none }
              tracking := createDefaultTracking
              lastDeliveredAssistantMessageID := none
              pendingForwardRequests := [] })]
          "c1" "c9" "do it" none
          { forwardToken := "T", now := 0, markerMessages := none,
            rewriteResult := ("do it", 0, none), promptError := none }).2.2 = []) := by
  refine ⟨?_, ?_, ?_, ?_⟩
  · exact C6_nested_orchestrator_guard.1 _ _ rfl
  · exact C6_nested_orchestrator_guard.2.1 _ _ (by decide)
  · exact (C6_nested_orchestrator_guard.2.2.1 _ _ "/repo" "task" _ (by decide)).1
  · exact (C6_nested_orchestrator_guard.2.2.2 _ _ "c9" "do it" none _ (by decide)).2.2

/-! ## Claim C7 — workspace directory stability -/

/-- Normalization touches neither the stored workspace directory ... -/
theorem normalizeRecord_workspaceDirectory (k : String) (r : ChildSessionRecord) :
    (normalizeRecord k r).registration.workspaceDirectory
      = r.registration.workspaceDirectory := rfl

/-- Writing a record whose workspace directory matches the one already read
back leaves every observed workspace directory unchanged. -/
theorem wsdir_writeRecord (store : RegistryStore) (t c : String)
    (rec0 rec : ChildSessionRecord)
    (h0 : readRecord store t = some rec0)
    (hsame : rec.registration.workspaceDirectory = rec0.registration.workspaceDirectory) :
    getChildWorkspaceDirectory (writeRecord store t rec) c
      = getChildWorkspaceDirectory store c := by
  by_cases hc : c = t
  · subst hc
    have h1 : readRecord (writeRecord store c rec) c
        = some (normalizeRecord c (normalizeRecord c rec)) := by
      unfold readRecord writeRecord
      rw [getRecord_setRecord_self]
      rfl
    unfold getChildWorkspaceDirectory
    rw [h1, h0]
    show (normalizeRecord c (normalizeRecord c rec)).registration.workspaceDirectory
        = rec0.registration.workspaceDirectory
    rw [normalizeRecord_workspaceDirectory, normalizeRecord_workspaceDirectory, hsame]
  · unfold getChildWorkspaceDirectory readRecord writeRecord
    rw [getRecord_setRecord_ne _ _ _ _ hc]

/-- Every mutating registry operation apart from registration, applied to an
arbitrary target child. -/
inductive RegistryMutation where
  | promptSent (at_ : Int) (agent : Option String)
  | resultReceived (at_ : Int) (excerpt : Option String)
  | errorMarked (at_ : Int) (excerpt : Option String)
  | observedAssistant (at_ : Int) (excerpt : Option String)
  | deliveredSet (messageID : String)
  | enqueue (request : PendingForwardRequest)
  | shift
  | remove (forwardToken : String)
deriving DecidableEq, Repr

/-- Interpretation of a registry mutation against the store. -/
def applyMutation (store : RegistryStore) (childSessionID : String) :
    RegistryMutation → RegistryStore
  | RegistryMutation.promptSent a ag => markPromptSent store childSessionID a ag
  | RegistryMutation.resultReceived a e => markResultReceived store childSessionID a e
  | RegistryMutation.errorMarked a e => markError store childSessionID a e
  | RegistryMutation.observedAssistant a e => recordObservedAssistantMessage store childSessionID a e
  | RegistryMutation.deliveredSet m => setLastDeliveredAssistantMessageID store childSessionID m
  | RegistryMutation.enqueue r => enqueuePendingForwardRequest store childSessionID r
  | RegistryMutation.shift => (shiftPendingForwardRequest store childSessionID).1
  | RegistryMutation.remove t => (removePendingForwardRequest store childSessionID t).1

/-- Claim C7, counterexample: register c1 with workspace directory w1, then
register the same child key again with workspace directory w2 — the stored
value changes to w2, so a later registry operation (re-registration) does
change an assigned non-null workspace directory. -/
theorem C7_counterexample :
    getChildWorkspaceDirectory
        (registerChildSession
          (registerChildSession []
            { childSessionID := "c1", orchestratorSessionID := "o1",
              orchestratorDirectory := none, title := "c1", createdAt := 0,
              workspaceDirectory := some "/w1", workspaceBranch := none })
          { childSessionID := "c1", orchestratorSessionID := "o1",
            orchestratorDirectory := none, title := "c1", createdAt := 5,
            workspaceDirectory := some "/w2", workspaceBranch := none })
        "c1" = some "/w2"
    ∧ getChildWorkspaceDirectory
        (registerChildSession []
          { childSessionID := "c1", orchestratorSessionID := "o1",
            orchestratorDirectory := none, title := "c1", createdAt := 0,
            workspaceDirectory := some "/w1", workspaceBranch := none })
        "c1" = some "/w1"
    ∧ (some "/w2" : Option String) ≠ some "/w1" := by
  exact ⟨by decide, by decide, by decide⟩

/-- Claim C7, amended: the stored workspace directory of every child is
unchanged by every registry operation other than registration (state marks,
observed-message updates, delivered-id writes, queue operations), and by a
registration of a different child key; a successful re-registration of the
same key, however, overwrites it with the workspace directory of the new
input. -/
theorem C7_workspace_directory_stability :
    (∀ (store : RegistryStore) (target c : String) (m : RegistryMutation),
        getChildWorkspaceDirectory (applyMutation store target m) c
          = getChildWorkspaceDirectory store c)
    ∧ (∀ (store : RegistryStore) (input : ChildSessionRegistration) (c : String),
        c ≠ input.childSessionID →
        getChildWorkspaceDirectory (registerChildSession store input) c
          = getChildWorkspaceDirectory store c)
    ∧ (∀ (store : RegistryStore) (input : ChildSessionRegistration),
        input.orchestratorSessionID ≠ "" →
        getRecord store input.orchestratorSessionID = none →
        getChildWorkspaceDirectory (registerChildSession store input) input.childSessionID
          = input.workspaceDirectory) := by
  refine ⟨?_, ?_, ?_⟩
  · intro store target c m
    cases m with
    | promptSent a ag =>
      simp only [applyMutation]
      unfold markPromptSent
      cases h : readRecord store target with
      | none => rfl
      | some rec => exact wsdir_writeRecord store target c rec _ h rfl
    | resultReceived a e =>
      simp only [applyMutation]
      unfold markResultReceived
      cases h : readRecord store target with
      | none => rfl
      | some rec => exact wsdir_writeRecord store target c rec _ h rfl
    | errorMarked a e =>
      simp only [applyMutation]
      unfold markError
      cases h : readRecord store target with
      | none => rfl
      | some rec => exact wsdir_writeRecord store target c rec _ h rfl
    | observedAssistant a e =>
      simp only [applyMutation]
      unfold recordObservedAssistantMessage
      cases h : readRecord store target with
      | none => rfl
      | some rec => exact wsdir_writeRecord store target c rec _ h rfl
    | deliveredSet msg =>
      simp only [applyMutation]
      unfold setLastDeliveredAssistantMessageID
      cases h : readRecord store target with
      | none => rfl
      | some rec => exact wsdir_writeRecord store target c rec _ h rfl
    | enqueue r =>
      simp only [applyMutation]
      unfold enqueuePendingForwardRequest
      cases h : readRecord store target with
      | none => rfl
      | some rec => exact wsdir_writeRecord store target c rec _ h rfl
    | shift =>
      simp only [applyMutation]
      unfold shiftPendingForwardRequest
      cases h : readRecord store target with
      | none => rfl
      | some rec =>
        dsimp only
        cases hq : rec.pendingForwardRequests with
        | nil => rfl
        | cons q rest => exact wsdir_writeRecord store target c rec _ h rfl
    | remove tok =>
      simp only [applyMutation]
      unfold removePendingForwardRequest
      cases h : readRecord store target with
      | none => rfl
      | some rec =>
        dsimp only
        by_cases hl :
            (rec.pendingForwardRequests.filter (fun r => r.forwardToken ≠ tok)).length
              = rec.pendingForwardRequests.length
        · rw [if_pos hl]
        · rw [if_neg hl]
          exact wsdir_writeRecord store target c rec _ h rfl
  · intro store input c hc
    unfold registerChildSession
    by_cases h1 : input.orchestratorSessionID = ""
    · rw [if_pos h1]
    · rw [if_neg h1]
      by_cases h2 : (getRecord store input.orchestratorSessionID).isSome
      · rw [if_pos h2]
      · rw [if_neg h2]
        unfold getChildWorkspaceDirectory readRecord writeRecord
        rw [getRecord_setRecord_ne _ _ _ _ hc]
  · intro store input horch hguard
    unfold registerChildSession
    rw [if_neg horch, hguard]
    simp only [Option.isSome_none, Bool.false_eq_true, if_false]
    unfold getChildWorkspaceDirectory readRecord writeRecord
    rw [getRecord_setRecord_self]
    rfl

/-- Claim C7, witness: the three parts of the stability statement applied to
a concrete one-child store (a shift mutation, a registration of another
child, and an overwriting re-registration). -/
theorem C7_workspace_directory_stability_witness :
    getChildWorkspaceDirectory
        (applyMutation
          [("c1",
            { registration :=
                { childSessionID := "c1", orchestratorSessionID := "o1",
                  orchestratorDirectory := none, title := "c1", createdAt := 0,
                  workspaceDirectory := some "/w1", workspaceBranch := none }
              tracking := createDefaultTracking
              lastDeliveredAssistantMessageID := none
              pendingForwardRequests := [] })]
          "c1" RegistryMutation.shift) "c1"
      = getChildWorkspaceDirectory
          [("c1",
            { registration :=
                { childSessionID := "c1", orchestratorSessionID := "o1",
                  orchestratorDirectory := none, title := "c1", createdAt := 0,
                  workspaceDirectory := some "/w1", workspaceBranch := none }
              tracking := createDefaultTracking
              lastDeliveredAssistantMessageID := none
              pendingForwardRequests := [] })] "c1"
    ∧ getChildWorkspaceDirectory
        (registerChildSession
          [("c1",
            { registration :=
                { childSessionID := "c1", orchestratorSessionID := "o1",
                  orchestratorDirectory := none, title := "c1", createdAt := 0,
                  workspaceDirectory := some "/w1", workspaceBranch := none }
              tracking := createDefaultTracking
              lastDeliveredAssistantMessageID := none
              pendingForwardRequests := [] })]
          { childSessionID := "c2", orchestratorSessionID := "o1",
            orchestratorDirectory := none, title := "c2", createdAt := 1,
            workspaceDirectory := some "/w9", workspaceBranch := none }) "c1"
      = getChildWorkspaceDirectory
          [("c1",
            { registration :=
                { childSessionID := "c1", orchestratorSessionID := "o1",
                  orchestratorDirectory := none, title := "c1", createdAt := 0,
                  workspaceDirectory := some "/w1", workspaceBranch := none }
              tracking := createDefaultTracking
              lastDeliveredAssistantMessageID := none
              pendingForwardRequests := [] })] "c1"
    ∧ getChildWorkspaceDirectory
        (registerChildSession []
          { childSessionID := "c3", orchestratorSessionID := "o1",
            orchestratorDirectory := none, title := "c3", createdAt := 2,
            workspaceDirectory := some "/w3", workspaceBranch := none }) "c3"
      = some "/w3" := by
  refine ⟨?_, ?_, ?_⟩
  · exact C7_workspace_directory_stability.1 _ "c1" "c1" RegistryMutation.shift
  · exact C7_workspace_directory_stability.2.1 _
      { childSessionID := "c2", orchestratorSessionID := "o1",
        orchestratorDirectory := none, title := "c2", createdAt := 1,
        workspaceDirectory := some "/w9", workspaceBranch := none } "c1" (by decide)
  · exact C7_workspace_directory_stability.2.2 []
      { childSessionID := "c3", orchestratorSessionID := "o1",
        orchestratorDirectory := none, title := "c3", createdAt := 2,
        workspaceDirectory := some "/w3", workspaceBranch := none } (by decide) (by decide)

/-! ## Claim C8 — FIFO laws of the pending-forward queue -/

theorem normalizeRecord_tracking (k : String) (r : ChildSessionRecord) :
    (normalizeRecord k r).tracking = r.tracking := rfl

theorem normalizeRecord_lastDelivered (k : String) (r : ChildSessionRecord) :
    (normalizeRecord k r).lastDeliveredAssistantMessageID
      = r.lastDeliveredAssistantMessageID := rfl

/-- Enqueue on a registered child with well-formed tokens appends the
request at the back of the stored queue and keeps the other record
fields. -/
theorem enqueue_spec (store : RegistryStore) (child : String)
    (r : PendingForwardRequest) (R : ChildSessionRecord)
    (hg : getRecord store child = some R)
    (htok : ∀ q ∈ R.pendingForwardRequests, q.forwardToken ≠ "")
    (hr : r.forwardToken ≠ "") :
    ∃ R2, getRecord (enqueuePendingForwardRequest store child r) child = some R2 ∧
      R2.pendingForwardRequests = R.pendingForwardRequests ++ [r] ∧
      R2.tracking = R.tracking ∧
      R2.lastDeliveredAssistantMessageID = R.lastDeliveredAssistantMessageID := by
  have hread : readRecord store child = some (normalizeRecord child R) := by
    unfold readRecord
    rw [hg]
    rfl
  unfold enqueuePendingForwardRequest
  rw [hread]
  dsimp only
  unfold writeRecord
  refine ⟨_, getRecord_setRecord_self _ _ _, ?_, rfl, rfl⟩
  · show normalizePendingForwardRequests
        ((normalizeRecord child R).pendingForwardRequests ++ [r])
      = R.pendingForwardRequests ++ [r]
    have hq : (normalizeRecord child R).pendingForwardRequests = R.pendingForwardRequests :=
      normalizePendingForwardRequests_of_nonempty _ htok
    rw [hq]
    refine normalizePendingForwardRequests_of_nonempty _ ?_
    intro q hqmem
    rcases List.mem_append.mp hqmem with h | h
    · exact htok q h
    · rcases List.mem_singleton.mp h with rfl
      exact hr

/-- Shift on a registered child with an empty well-formed queue is a no-op
returning nothing. -/
theorem shift_nil_spec (store : RegistryStore) (child : String) (R : ChildSessionRecord)
    (hg : getRecord store child = some R)
    (htok : ∀ q ∈ R.pendingForwardRequests, q.forwardToken ≠ "")
    (hnil : R.pendingForwardRequests = []) :
    shiftPendingForwardRequest store child = (store, none) := by
  have hread : readRecord store child = some (normalizeRecord child R) := by
    unfold readRecord
    rw [hg]
    rfl
  have hq2 : (normalizeRecord child R).pendingForwardRequests = [] := by
    rw [show (normalizeRecord child R).pendingForwardRequests
        = normalizePendingForwardRequests R.pendingForwardRequests from rfl,
      normalizePendingForwardRequests_of_nonempty _ htok, hnil]
  unfold shiftPendingForwardRequest
  rw [hread]
  dsimp only
  rw [hq2]

/-- Shift on a registered child with a nonempty well-formed queue pops the
front request and keeps the tracking and last delivered id. -/
theorem shift_cons_spec (store : RegistryStore) (child : String) (R : ChildSessionRecord)
    (q : PendingForwardRequest) (rest : List PendingForwardRequest)
    (hg : getRecord store child = some R)
    (htok : ∀ x ∈ R.pendingForwardRequests, x.forwardToken ≠ "")
    (hq : R.pendingForwardRequests = q :: rest) :
    (shiftPendingForwardRequest store child).2 = some q ∧
    ∃ R2, getRecord (shiftPendingForwardRequest store child).1 child = some R2 ∧
      R2.pendingForwardRequests = rest ∧
      R2.tracking = R.tracking ∧
      R2.lastDeliveredAssistantMessageID = R.lastDeliveredAssistantMessageID ∧
      R2.registration.orchestratorSessionID = R.registration.orchestratorSessionID := by
  have hread : readRecord store child = some (normalizeRecord child R) := by
    unfold readRecord
    rw [hg]
    rfl
  have hqn : (normalizeRecord child R).pendingForwardRequests = q :: rest := by
    rw [show (normalizeRecord child R).pendingForwardRequests
        = normalizePendingForwardRequests R.pendingForwardRequests from rfl,
      normalizePendingForwardRequests_of_nonempty _ htok, hq]
  have hrest : ∀ x ∈ rest, x.forwardToken ≠ "" := by
    intro x hx
    exact htok x (by rw [hq]; exact List.mem_cons_of_mem _ hx)
  unfold shiftPendingForwardRequest
  rw [hread]
  dsimp only
  rw [hqn]
  dsimp only
  unfold writeRecord
  refine ⟨rfl, _, getRecord_setRecord_self _ _ _, ?_, rfl, rfl, rfl⟩
  show normalizePendingForwardRequests rest = rest
  exact normalizePendingForwardRequests_of_nonempty _ hrest

/-- A queue operation issued against a child: enqueue of a request, or a
shift. -/
inductive QueueOp where
  | enq (request : PendingForwardRequest)
  | shift
deriving DecidableEq, Repr

/-- Run a sequence of queue operations against the registry, collecting the
successfully shifted requests in order. -/
def runQueueOps (childSessionID : String) :
    RegistryStore → List QueueOp → RegistryStore × List PendingForwardRequest
  | store, [] => (store, [])
  | store, QueueOp.enq r :: ops =>
    runQueueOps childSessionID (enqueuePendingForwardRequest store childSessionID r) ops
  | store, QueueOp.shift :: ops =>
    let step := shiftPendingForwardRequest store childSessionID
    let rest := runQueueOps childSessionID step.1 ops
    (rest.1, (match step.2 with | some q => [q] | none => []) ++ rest.2)

/-- The requests an operation sequence enqueues, in order. -/
def enqueuedOf (ops : List QueueOp) : List PendingForwardRequest :=
  ops.filterMap (fun op => match op with | QueueOp.enq r => some r | QueueOp.shift => none)

/-- FIFO run invariant: over any operation sequence on a registered child,
the shifted outputs followed by the remaining queue equal the initial queue
followed by the enqueued requests — shift hands requests back exactly in
enqueue order. -/
theorem runQueueOps_fifo (child : String) (ops : List QueueOp)
    (henq : ∀ r, QueueOp.enq r ∈ ops → r.forwardToken ≠ "") :
    ∀ (store : RegistryStore) (R : ChildSessionRecord),
      getRecord store child = some R →
      (∀ q ∈ R.pendingForwardRequests, q.forwardToken ≠ "") →
      ∃ R2, getRecord (runQueueOps child store ops).1 child = some R2 ∧
        (∀ q ∈ R2.pendingForwardRequests, q.forwardToken ≠ "") ∧
        (runQueueOps child store ops).2 ++ R2.pendingForwardRequests
          = R.pendingForwardRequests ++ enqueuedOf ops := by
  induction ops with
  | nil =>
    intro store R hg htok
    exact ⟨R, hg, htok, by simp [runQueueOps, enqueuedOf]⟩
  | cons op ops ih =>
    intro store R hg htok
    cases op with
    | enq r =>
      have hr : r.forwardToken ≠ "" := henq r (List.mem_cons_self _ _)
      obtain ⟨R1, hg1, hq1, _, _⟩ := enqueue_spec store child r R hg htok hr
      have htok1 : ∀ q ∈ R1.pendingForwardRequests, q.forwardToken ≠ "" := by
        intro x hx
        rw [hq1] at hx
        rcases List.mem_append.mp hx with h | h
        · exact htok x h
        · rcases List.mem_singleton.mp h with rfl
          exact hr
      obtain ⟨R2, hg2, htok2, hfifo⟩ := ih
        (fun x hx => henq x (List.mem_cons_of_mem _ hx))
        (enqueuePendingForwardRequest store child r) R1 hg1 htok1
      refine ⟨R2, hg2, htok2, ?_⟩
      show (runQueueOps child (enqueuePendingForwardRequest store child r) ops).2
          ++ R2.pendingForwardRequests = R.pendingForwardRequests ++ enqueuedOf (QueueOp.enq r :: ops)
      rw [hfifo, hq1]
      simp [enqueuedOf]
    | shift =>
      cases hq : R.pendingForwardRequests with
      | nil =>
        have hstep := shift_nil_spec store child R hg htok hq
        obtain ⟨R2, hg2, htok2, hfifo⟩ := ih
          (fun x hx => henq x (List.mem_cons_of_mem _ hx)) store R hg htok
        rw [hq] at hfifo
        refine ⟨R2, ?_, htok2, ?_⟩
        · simp only [runQueueOps, hstep]
          exact hg2
        · simp only [runQueueOps, hstep]
          simpa [enqueuedOf] using hfifo
      | cons q rest =>
        obtain ⟨hout, R1, hg1, hq1, _, _, _⟩ := shift_cons_spec store child R q rest hg htok hq
        have htok1 : ∀ x ∈ R1.pendingForwardRequests, x.forwardToken ≠ "" := by
          intro x hx
          rw [hq1] at hx
          exact htok x (by rw [hq]; exact List.mem_cons_of_mem _ hx)
        obtain ⟨R2, hg2, htok2, hfifo⟩ := ih
          (fun x hx => henq x (List.mem_cons_of_mem _ hx))
          (shiftPendingForwardRequest store child).1 R1 hg1 htok1
        rw [hq1] at hfifo
        refine ⟨R2, ?_, htok2, ?_⟩
        · simp only [runQueueOps]
          exact hg2
        · simp only [runQueueOps, hout]
          rw [List.append_assoc, hfifo]
          simp [enqueuedOf]

/-- A predicate that holds exactly once in a list: removing by filtering the
complement removes exactly that occurrence (the list shrinks by one and
every other element survives in order). -/
theorem filter_not_of_countP_one {α : Type} (p : α → Bool) :
    ∀ (l : List α), l.countP p = 1 →
      l.filter (fun a => !p a) = l.eraseP p ∧
      (l.filter (fun a => !p a)).length + 1 = l.length := by
  intro l
  induction l with
  | nil => intro h; simp [List.countP_nil] at h
  | cons a l ih =>
    intro h
    by_cases hpa : p a
    · have hl0 : l.countP p = 0 := by
        rw [List.countP_cons, if_pos hpa] at h
        omega
      have hfl : l.filter (fun x => !p x) = l := by
        apply List.filter_eq_self.mpr
        intro x hx
        have := List.countP_eq_zero.mp hl0 x hx
        simp [this]
      constructor
      · rw [List.filter_cons, List.eraseP_cons]
        simp [hpa, hfl]
      · simp [List.filter_cons, hpa, hfl]
    · have hl1 : l.countP p = 1 := by
        rw [List.countP_cons, if_neg hpa] at h
        omega
      obtain ⟨h1, h2⟩ := ih hl1
      constructor
      · rw [List.filter_cons, List.eraseP_cons]
        simp [hpa, h1]
      · rw [List.filter_cons]
        simp only [hpa, Bool.not_false, if_pos]
        simp only [List.length_cons]
        omega

/-- Remove on a registered child whose well-formed queue holds the token
exactly once succeeds and erases exactly that entry. -/
theorem remove_one_spec (store : RegistryStore) (child token : String)
    (R : ChildSessionRecord)
    (hg : getRecord store child = some R)
    (htok : ∀ q ∈ R.pendingForwardRequests, q.forwardToken ≠ "")
    (hcount : R.pendingForwardRequests.countP
        (fun r => decide (r.forwardToken = token)) = 1) :
    (removePendingForwardRequest store child token).2 = true ∧
    ∃ R2, getRecord (removePendingForwardRequest store child token).1 child = some R2 ∧
      R2.pendingForwardRequests
        = R.pendingForwardRequests.eraseP (fun r => decide (r.forwardToken = token)) := by
  have hread : readRecord store child = some (normalizeRecord child R) := by
    unfold readRecord
    rw [hg]
    rfl
  have hqn : (normalizeRecord child R).pendingForwardRequests = R.pendingForwardRequests :=
    normalizePendingForwardRequests_of_nonempty _ htok
  have hpred : (fun (r : PendingForwardRequest) => decide (r.forwardToken ≠ token))
      = fun r => !(decide (r.forwardToken = token)) := by
    funext r
    simp [decide_not]
  obtain ⟨herase, hlen⟩ :=
    filter_not_of_countP_one (fun r => decide (r.forwardToken = token))
      R.pendingForwardRequests hcount
  have hfilter : R.pendingForwardRequests.filter (fun r => r.forwardToken ≠ token)
      = R.pendingForwardRequests.eraseP (fun r => decide (r.forwardToken = token)) := by
    rw [show (fun (r : PendingForwardRequest) => decide (r.forwardToken ≠ token))
        = fun r => !(decide (r.forwardToken = token)) from hpred]
    exact herase
  have hne : (R.pendingForwardRequests.filter (fun r => r.forwardToken ≠ token)).length
      ≠ R.pendingForwardRequests.length := by
    rw [show (fun (r : PendingForwardRequest) => decide (r.forwardToken ≠ token))
        = fun r => !(decide (r.forwardToken = token)) from hpred]
    omega
  unfold removePendingForwardRequest
  rw [hread]
  dsimp only
  rw [hqn]
  rw [if_neg hne]
  unfold writeRecord
  refine ⟨rfl, _, getRecord_setRecord_self _ _ _, ?_⟩
  · show normalizePendingForwardRequests
        (R.pendingForwardRequests.filter (fun r => r.forwardToken ≠ token))
      = R.pendingForwardRequests.eraseP (fun r => decide (r.forwardToken = token))
    rw [hfilter]
    apply normalizePendingForwardRequests_of_nonempty
    intro x hx
    exact htok x (List.mem_of_mem_eraseP hx)

/-- Claim C8: the pending-forward queue obeys the FIFO laws. Over any
sequence of enqueue and shift operations on a registered child whose tokens
are nonempty (the data-model constraint), the shifted outputs followed by
the remaining queue equal the initial queue followed by the enqueued
requests, so shift returns requests exactly in enqueue order;
hasPendingForwardRequests holds exactly when peekPendingForwardRequest is
not none; and removePendingForwardRequest with a token the queue holds
exactly once (tokens within the queue are unique by the data model) reports
success and erases exactly that entry, preserving the others in order. -/
theorem C8_pending_queue_fifo_laws :
    (∀ (child : String) (ops : List QueueOp) (store : RegistryStore) (R : ChildSessionRecord),
        (∀ r, QueueOp.enq r ∈ ops → r.forwardToken ≠ "") →
        getRecord store child = some R →
        (∀ q ∈ R.pendingForwardRequests, q.forwardToken ≠ "") →
        ∃ R2, getRecord (runQueueOps child store ops).1 child = some R2 ∧
          (runQueueOps child store ops).2 ++ R2.pendingForwardRequests
            = R.pendingForwardRequests ++ enqueuedOf ops)
    ∧ (∀ (store : RegistryStore) (child : String),
        hasPendingForwardRequests store child = true ↔
          peekPendingForwardRequest store child ≠ none)
    ∧ (∀ (store : RegistryStore) (child token : String) (R : ChildSessionRecord),
        getRecord store child = some R →
        (∀ q ∈ R.pendingForwardRequests, q.forwardToken ≠ "") →
        R.pendingForwardRequests.countP (fun r => decide (r.forwardToken = token)) = 1 →
        (removePendingForwardRequest store child token).2 = true ∧
        ∃ R2, getRecord (removePendingForwardRequest store child token).1 child = some R2 ∧
          R2.pendingForwardRequests
            = R.pendingForwardRequests.eraseP (fun r => decide (r.forwardToken = token))) := by
  refine ⟨?_, ?_, ?_⟩
  · intro child ops store R henq hg htok
    obtain ⟨R2, hg2, _, hfifo⟩ := runQueueOps_fifo child ops henq store R hg htok
    exact ⟨R2, hg2, hfifo⟩
  · intro store child
    unfold hasPendingForwardRequests
    exact Option.isSome_iff_ne_none
  · intro store child token R hg htok hcount
    exact remove_one_spec store child token R hg htok hcount

/-- Claim C8, witness: a concrete run (enqueue T1, shift, enqueue T2,
enqueue T3, shift) on a freshly registered child, the peek equivalence on
the resulting store, and a removal by token on a two-request queue. -/
theorem C8_pending_queue_fifo_laws_witness :
    (∃ R2,
      getRecord
          (runQueueOps "c"
            [("c", ⟨⟨"c", "o", none, "c", 0, none, none⟩, createDefaultTracking, none, []⟩)]
            [QueueOp.enq ⟨"T1", 1, none, none⟩, QueueOp.shift,
             QueueOp.enq ⟨"T2", 2, none, none⟩, QueueOp.enq ⟨"T3", 3, none, none⟩,
             QueueOp.shift]).1 "c" = some R2 ∧
      (runQueueOps "c"
            [("c", ⟨⟨"c", "o", none, "c", 0, none, none⟩, createDefaultTracking, none, []⟩)]
            [QueueOp.enq ⟨"T1", 1, none, none⟩, QueueOp.shift,
             QueueOp.enq ⟨"T2", 2, none, none⟩, QueueOp.enq ⟨"T3", 3, none, none⟩,
             QueueOp.shift]).2 ++ R2.pendingForwardRequests
        = [] ++ enqueuedOf
            [QueueOp.enq ⟨"T1", 1, none, none⟩, QueueOp.shift,
             QueueOp.enq ⟨"T2", 2, none, none⟩, QueueOp.enq ⟨"T3", 3, none, none⟩,
             QueueOp.shift])
    ∧ (hasPendingForwardRequests
          [("c", ⟨⟨"c", "o", none, "c", 0, none, none⟩, createDefaultTracking, none,
            [⟨"T1", 1, none, none⟩]⟩)] "c" = true ↔
        peekPendingForwardRequest
          [("c", ⟨⟨"c", "o", none, "c", 0, none, none⟩, createDefaultTracking, none,
            [⟨"T1", 1, none, none⟩]⟩)] "c" ≠ none)
    ∧ ((removePendingForwardRequest
          [("c", ⟨⟨"c", "o", none, "c", 0, none, none⟩, createDefaultTracking, none,
            [⟨"T1", 1, none, none⟩, ⟨"T2", 2, none, none⟩]⟩)] "c" "T2").2 = true) := by
  refine ⟨?_, ?_, ?_⟩
  · obtain ⟨R2, hg2, hfifo⟩ := C8_pending_queue_fifo_laws.1 "c"
      [QueueOp.enq ⟨"T1", 1, none, none⟩, QueueOp.shift,
       QueueOp.enq ⟨"T2", 2, none, none⟩, QueueOp.enq ⟨"T3", 3, none, none⟩,
       QueueOp.shift]
      [("c", ⟨⟨"c", "o", none, "c", 0, none, none⟩, createDefaultTracking, none, []⟩)]
      ⟨⟨"c", "o", none, "c", 0, none, none⟩, createDefaultTracking, none, []⟩
      (by
        intro r hr
        simp only [List.mem_cons, List.not_mem_nil, or_false] at hr
        rcases hr with h | h | h | h | h
        all_goals first
          | exact QueueOp.noConfusion h
          | (injection h with h2; subst h2; decide))
      (by decide) (by decide)
    exact ⟨R2, hg2, hfifo⟩
  · exact C8_pending_queue_fifo_laws.2.1 _ "c"
  · exact (C8_pending_queue_fifo_laws.2.2 _ "c" "T2"
      ⟨⟨"c", "o", none, "c", 0, none, none⟩, createDefaultTracking, none,
        [⟨"T1", 1, none, none⟩, ⟨"T2", 2, none, none⟩]⟩
      (by decide) (by decide) (by decide)).1

/-! ## Registry operation specifications

Small read-back specifications for the operations the delivery paths chain
together, under the data-model constraint that stored forward tokens are
nonempty. -/

theorem readRecord_of_getRecord (store : RegistryStore) (child : String)
    (R : ChildSessionRecord) (hg : getRecord store child = some R) :
    readRecord store child = some (normalizeRecord child R) := by
  unfold readRecord
  rw [hg]
  rfl

theorem normalizePendingForwardRequests_idem (l : List PendingForwardRequest) :
    normalizePendingForwardRequests (normalizePendingForwardRequests l)
      = normalizePendingForwardRequests l := by
  unfold normalizePendingForwardRequests
  rw [List.filter_filter]
  apply List.filter_congr
  intro a _
  simp

theorem peek_spec (store : RegistryStore) (child : String) (R : ChildSessionRecord)
    (hg : getRecord store child = some R)
    (htok : ∀ q ∈ R.pendingForwardRequests, q.forwardToken ≠ "") :
    peekPendingForwardRequest store child = R.pendingForwardRequests.head? := by
  unfold peekPendingForwardRequest
  rw [readRecord_of_getRecord store child R hg]
  show (normalizeRecord child R).pendingForwardRequests.head? = _
  rw [show (normalizeRecord child R).pendingForwardRequests
      = normalizePendingForwardRequests R.pendingForwardRequests from rfl,
    normalizePendingForwardRequests_of_nonempty _ htok]

theorem getOrchestratorSessionID_spec (store : RegistryStore) (child : String)
    (R : ChildSessionRecord) (hg : getRecord store child = some R) :
    getOrchestratorSessionID store child = some R.registration.orchestratorSessionID := by
  unfold getOrchestratorSessionID
  rw [readRecord_of_getRecord store child R hg]
  rfl

theorem getLastDelivered_spec (store : RegistryStore) (child : String)
    (R : ChildSessionRecord) (hg : getRecord store child = some R) :
    getLastDeliveredAssistantMessageID store child = R.lastDeliveredAssistantMessageID := by
  unfold getLastDeliveredAssistantMessageID
  rw [readRecord_of_getRecord store child R hg]
  rfl

theorem getLastPromptAgent_spec (store : RegistryStore) (child : String)
    (R : ChildSessionRecord) (hg : getRecord store child = some R) :
    getLastPromptAgent store child = R.tracking.lastPromptAgent := by
  unfold getLastPromptAgent
  rw [readRecord_of_getRecord store child R hg]
  rfl

theorem markError_spec (store : RegistryStore) (child : String) (now : Int)
    (excerpt : Option String) (R : ChildSessionRecord)
    (hg : getRecord store child = some R) :
    ∃ R1, getRecord (markError store child now excerpt) child = some R1 ∧
      R1.tracking.state = ChildSessionState.error ∧
      R1.tracking.lastPromptAgent = R.tracking.lastPromptAgent ∧
      R1.pendingForwardRequests = normalizePendingForwardRequests R.pendingForwardRequests ∧
      R1.registration.orchestratorSessionID = R.registration.orchestratorSessionID ∧
      R1.lastDeliveredAssistantMessageID = R.lastDeliveredAssistantMessageID := by
  unfold markError
  rw [readRecord_of_getRecord store child R hg]
  dsimp only
  unfold writeRecord
  exact ⟨_, getRecord_setRecord_self _ _ _, rfl, rfl,
    normalizePendingForwardRequests_idem _, rfl, rfl⟩

theorem markResultReceived_spec (store : RegistryStore) (child : String) (now : Int)
    (excerpt : Option String) (R : ChildSessionRecord)
    (hg : getRecord store child = some R) :
    ∃ R1, getRecord (markResultReceived store child now excerpt) child = some R1 ∧
      R1.tracking.state = ChildSessionState.result_received ∧
      R1.pendingForwardRequests = normalizePendingForwardRequests R.pendingForwardRequests ∧
      R1.registration.orchestratorSessionID = R.registration.orchestratorSessionID ∧
      R1.lastDeliveredAssistantMessageID = R.lastDeliveredAssistantMessageID := by
  unfold markResultReceived
  rw [readRecord_of_getRecord store child R hg]
  dsimp only
  unfold writeRecord
  exact ⟨_, getRecord_setRecord_self _ _ _, rfl,
    normalizePendingForwardRequests_idem _, rfl, rfl⟩

theorem setLastDelivered_spec (store : RegistryStore) (child : String) (messageID : String)
    (R : ChildSessionRecord) (hg : getRecord store child = some R) :
    ∃ R1, getRecord (setLastDeliveredAssistantMessageID store child messageID) child = some R1 ∧
      R1.lastDeliveredAssistantMessageID = some messageID ∧
      R1.tracking = R.tracking ∧
      R1.registration.orchestratorSessionID = R.registration.orchestratorSessionID ∧
      R1.pendingForwardRequests = normalizePendingForwardRequests R.pendingForwardRequests := by
  unfold setLastDeliveredAssistantMessageID
  rw [readRecord_of_getRecord store child R hg]
  dsimp only
  unfold writeRecord
  exact ⟨_, getRecord_setRecord_self _ _ _, rfl, rfl, rfl,
    normalizePendingForwardRequests_idem _⟩

/-! ## Claim C9 — error path consumes at most one pending request -/

/-- Claim C9: on a session error for a registered child (well-formed
tokens), the state is marked error; with an empty pending queue nothing is
posted and the queue stays empty; with a nonempty queue exactly the oldest
request is consumed and a single synthetic error message carrying its
forward token is posted. -/
theorem C9_session_error_consumes_one (store : RegistryStore) (child errText : String)
    (now : Int) (R : ChildSessionRecord)
    (hg : getRecord store child = some R)
    (htok : ∀ q ∈ R.pendingForwardRequests, q.forwardToken ≠ "") :
    ((trackingOf (handleSessionError store child errText now).1 child).map
        (fun t => t.state) = some ChildSessionState.error)
    ∧ (R.pendingForwardRequests = [] →
        (handleSessionError store child errText now).2 = [] ∧
        pendingQueue (handleSessionError store child errText now).1 child = [])
    ∧ (∀ q rest, R.pendingForwardRequests = q :: rest →
        (handleSessionError store child errText now).2
          = [{ sessionID := R.registration.orchestratorSessionID
               text := "[Child session " ++ child ++ " error]\n\n" ++ errText
               status := "error"
               assistantMessageID := none
               forwardToken := some q.forwardToken }] ∧
        pendingQueue (handleSessionError store child errText now).1 child = rest) := by
  have horch := getOrchestratorSessionID_spec store child R hg
  obtain ⟨R1, hg1, hstate1, _, hq1, horch1, _⟩ :=
    markError_spec store child now (some (truncateText errText 400)) R hg
  have hq1R : R1.pendingForwardRequests = R.pendingForwardRequests := by
    rw [hq1, normalizePendingForwardRequests_of_nonempty _ htok]
  have htok1 : ∀ x ∈ R1.pendingForwardRequests, x.forwardToken ≠ "" := by
    rw [hq1R]
    exact htok
  have hpeek1 := peek_spec (markError store child now (some (truncateText errText 400)))
    child R1 hg1 htok1
  have hrun : handleSessionError store child errText now
      = (let store1 := markError store child now (some (truncateText errText 400))
         if hasPendingForwardRequests store1 child then
           let shifted := shiftPendingForwardRequest store1 child
           match shifted.2 with
           | none => (shifted.1, [])
           | some delivered =>
             (shifted.1,
               [{ sessionID := R.registration.orchestratorSessionID
                  text := "[Child session " ++ child ++ " error]\n\n" ++ errText
                  status := "error"
                  assistantMessageID := none
                  forwardToken := some delivered.forwardToken }])
         else (store1, [])) := by
    unfold handleSessionError
    rw [horch]
  rcases hqcase : R.pendingForwardRequests with _ | ⟨q, rest⟩
  · have hnopending : hasPendingForwardRequests
        (markError store child now (some (truncateText errText 400))) child = false := by
      unfold hasPendingForwardRequests
      rw [hpeek1, hq1R, hqcase]
      rfl
    have hout : handleSessionError store child errText now
        = (markError store child now (some (truncateText errText 400)), []) := by
      rw [hrun]
      simp only [hnopending, Bool.false_eq_true, if_false]
    refine ⟨?_, fun _ => ⟨?_, ?_⟩, ?_⟩
    · rw [hout]
      unfold trackingOf
      rw [readRecord_of_getRecord _ child R1 hg1]
      simp [normalizeRecord_tracking, hstate1]
    · rw [hout]
    · rw [hout]
      unfold pendingQueue
      rw [readRecord_of_getRecord _ child R1 hg1]
      show normalizePendingForwardRequests R1.pendingForwardRequests = []
      rw [hq1R, hqcase]
      rfl
    · intro q rest hcontra
      exact absurd hcontra (by simp)
  · obtain ⟨hout2, R2, hg2, hq2, htr2, _, _⟩ := shift_cons_spec
      (markError store child now (some (truncateText errText 400))) child R1 q rest hg1 htok1
      (by rw [hq1R, hqcase])
    have hpending : hasPendingForwardRequests
        (markError store child now (some (truncateText errText 400))) child = true := by
      unfold hasPendingForwardRequests
      rw [hpeek1, hq1R, hqcase]
      rfl
    have hout : handleSessionError store child errText now
        = ((shiftPendingForwardRequest
              (markError store child now (some (truncateText errText 400))) child).1,
           [{ sessionID := R.registration.orchestratorSessionID
              text := "[Child session " ++ child ++ " error]\n\n" ++ errText
              status := "error"
              assistantMessageID := none
              forwardToken := some q.forwardToken }]) := by
      rw [hrun]
      simp only [hpending, if_true, hout2]
    have htok2 : ∀ x ∈ R2.pendingForwardRequests, x.forwardToken ≠ "" := by
      rw [hq2]
      intro x hx
      exact htok x (by rw [hqcase]; exact List.mem_cons_of_mem _ hx)
    refine ⟨?_, ?_, ?_⟩
    · rw [hout]
      unfold trackingOf
      rw [readRecord_of_getRecord _ child R2 hg2]
      simp only [Option.map_map]
      show some (normalizeRecord child R2).tracking.state = some ChildSessionState.error
      rw [normalizeRecord_tracking, htr2, hstate1]
    · intro hcontra
      exact absurd hcontra (by simp)
    · intro q' rest' heq
      obtain ⟨rfl, rfl⟩ : q = q' ∧ rest = rest' := by
        have h1 := heq
        rw [List.cons.injEq] at h1
        exact h1
      refine ⟨by rw [hout], ?_⟩
      rw [hout]
      unfold pendingQueue
      rw [readRecord_of_getRecord _ child R2 hg2]
      show normalizePendingForwardRequests R2.pendingForwardRequests = rest
      rw [hq2]
      exact normalizePendingForwardRequests_of_nonempty _ (by
        intro x hx
        exact htok x (by rw [hqcase]; exact List.mem_cons_of_mem _ hx))

/-- Claim C9, witness: a session error on a child with two pending requests
marks the state error, posts exactly one synthetic error message carrying
the older token T1, and leaves exactly the request with token T2 queued. -/
theorem C9_session_error_consumes_one_witness :
    ((trackingOf
        (handleSessionError
          [("c", ⟨⟨"c", "o", none, "c", 0, none, none⟩, createDefaultTracking, none,
            [⟨"T1", 1, none, none⟩, ⟨"T2", 2, none, none⟩]⟩)] "c" "boom" 7).1 "c").map
        (fun t => t.state) = some ChildSessionState.error)
    ∧ (handleSessionError
          [("c", ⟨⟨"c", "o", none, "c", 0, none, none⟩, createDefaultTracking, none,
            [⟨"T1", 1, none, none⟩, ⟨"T2", 2, none, none⟩]⟩)] "c" "boom" 7).2
        = [{ sessionID := "o", text := "[Child session c error]\n\nboom",
             status := "error", assistantMessageID := none, forwardToken := some "T1" }]
    ∧ pendingQueue
        (handleSessionError
          [("c", ⟨⟨"c", "o", none, "c", 0, none, none⟩, createDefaultTracking, none,
            [⟨"T1", 1, none, none⟩, ⟨"T2", 2, none, none⟩]⟩)] "c" "boom" 7).1 "c"
        = [⟨"T2", 2, none, none⟩] := by
  have h := C9_session_error_consumes_one
    [("c", ⟨⟨"c", "o", none, "c", 0, none, none⟩, createDefaultTracking, none,
      [⟨"T1", 1, none, none⟩, ⟨"T2", 2, none, none⟩]⟩)] "c" "boom" 7
    ⟨⟨"c", "o", none, "c", 0, none, none⟩, createDefaultTracking, none,
      [⟨"T1", 1, none, none⟩, ⟨"T2", 2, none, none⟩]⟩
    (by decide) (by decide)
  exact ⟨h.1, (h.2.2 ⟨"T1", 1, none, none⟩ [⟨"T2", 2, none, none⟩] rfl).1,
    (h.2.2 ⟨"T1", 1, none, none⟩ [⟨"T2", 2, none, none⟩] rfl).2⟩

/-! ## Claims C3 and C4 — stable-idle delivery -/

/-- The main synthetic message a stable-idle delivery posts, expressed over
the pre-delivery record. -/
def idleMainMessage (R : ChildSessionRecord) (child : String)
    (f : ForwardableAssistantMessage) (q : PendingForwardRequest) : PostedMessage :=
  let label := if R.tracking.lastPromptAgent == some "plan" then "plan" else "completed"
  { sessionID := R.registration.orchestratorSessionID
    text := "[Child session " ++ child ++ " " ++ label ++ "]\n\n" ++ f.text
    status := label
    assistantMessageID := some f.assistantMessageID
    forwardToken := some q.forwardToken }

/-- The full posted list of a stable-idle delivery (the main message, plus
a questions message when the detector fires). -/
def idlePostedOf (R : ChildSessionRecord) (child : String)
    (f : ForwardableAssistantMessage) (q : PendingForwardRequest) (env : IdleEnv) :
    List PostedMessage :=
  match env.questionsText with
  | some qt =>
    [idleMainMessage R child f q,
     { sessionID := R.registration.orchestratorSessionID
       text := "[Child session " ++ child ++ " questions]\n\n" ++ qt
       status := "questions"
       assistantMessageID := some f.assistantMessageID
       forwardToken := none }]
  | none => [idleMainMessage R child f q]

/-- Branch-by-branch evaluation of handleStableIdle for a registered child
with a nonempty well-formed queue, a quiet host and an available message
list: no resolver match returns untouched; a match equal to the last
delivered id only shifts; a fresh match shifts, delivers, records the id and
the result. -/
theorem handleStableIdle_run (store : RegistryStore) (child : String) (env : IdleEnv)
    (R : ChildSessionRecord) (q : PendingForwardRequest) (rest : List PendingForwardRequest)
    (msgs : List SessionMessage)
    (hg : getRecord store child = some R)
    (htok : ∀ x ∈ R.pendingForwardRequests, x.forwardToken ≠ "")
    (hq : R.pendingForwardRequests = q :: rest)
    (hbusy : env.busy = false)
    (hmsgs : env.messages = some msgs) :
    (findForwardableAssistantMessage msgs q = none →
      handleStableIdle store child env = (store, []))
    ∧ (∀ f, findForwardableAssistantMessage msgs q = some f →
        (R.lastDeliveredAssistantMessageID = some f.assistantMessageID →
          handleStableIdle store child env = ((shiftPendingForwardRequest store child).1, []))
        ∧ (R.lastDeliveredAssistantMessageID ≠ some f.assistantMessageID →
          handleStableIdle store child env
            = (markResultReceived
                (setLastDeliveredAssistantMessageID
                  (shiftPendingForwardRequest store child).1 child f.assistantMessageID)
                child env.now (some (truncateText f.text 400)),
               idlePostedOf R child f q env))) := by
  have hpeek := peek_spec store child R hg htok
  obtain ⟨hsh2, R2, hg2, hq2, htr2, hld2, horch2⟩ :=
    shift_cons_spec store child R q rest hg htok hq
  have hbase : handleStableIdle store child env
      = (match findForwardableAssistantMessage msgs q with
        | none => (store, [])
        | some found =>
          let store1 := (shiftPendingForwardRequest store child).1
          if getLastDeliveredAssistantMessageID store1 child
              == some found.assistantMessageID then
            (store1, [])
          else
            let orch := (getOrchestratorSessionID store1 child).getD ""
            let label :=
              if getLastPromptAgent store1 child == some "plan" then "plan" else "completed"
            let mainMessage : PostedMessage :=
              { sessionID := orch
                text := "[Child session " ++ child ++ " " ++ label ++ "]\n\n" ++ found.text
                status := label
                assistantMessageID := some found.assistantMessageID
                forwardToken := some q.forwardToken }
            let posted :=
              match env.questionsText with
              | some qt =>
                [mainMessage,
                 { sessionID := orch
                   text := "[Child session " ++ child ++ " questions]\n\n" ++ qt
                   status := "questions"
                   assistantMessageID := some found.assistantMessageID
                   forwardToken := none }]
              | none => [mainMessage]
            let store2 := setLastDeliveredAssistantMessageID store1 child found.assistantMessageID
            let store3 := markResultReceived store2 child env.now
              (some (truncateText found.text 400))
            (store3, posted)) := by
    unfold handleStableIdle
    rw [hpeek, hq]
    dsimp only [List.head?]
    rw [hbusy, hmsgs]
    rw [if_neg (by simp : ¬ (false = true))]
  have hld1 : getLastDeliveredAssistantMessageID (shiftPendingForwardRequest store child).1 child
      = R.lastDeliveredAssistantMessageID := by
    rw [getLastDelivered_spec _ child R2 hg2, hld2]
  have horch1 : getOrchestratorSessionID (shiftPendingForwardRequest store child).1 child
      = some R.registration.orchestratorSessionID := by
    rw [getOrchestratorSessionID_spec _ child R2 hg2, horch2]
  have hagent1 : getLastPromptAgent (shiftPendingForwardRequest store child).1 child
      = R.tracking.lastPromptAgent := by
    rw [getLastPromptAgent_spec _ child R2 hg2, htr2]
  constructor
  · intro hfind
    rw [hbase, hfind]
  · intro f hfind
    constructor
    · intro hdup
      rw [hbase, hfind]
      dsimp only
      rw [hld1, hdup]
      simp
    · intro hnodup
      rw [hbase, hfind]
      dsimp only
      rw [hld1]
      have hbeq : (R.lastDeliveredAssistantMessageID == some f.assistantMessageID) = false := by
        rw [beq_eq_false_iff_ne]
        exact hnodup
      rw [hbeq]
      rw [if_neg (by simp : ¬ (false = true))]
      rw [horch1, hagent1]
      unfold idlePostedOf idleMainMessage
      cases env.questionsText <;> rfl

theorem pendingQueue_spec (store : RegistryStore) (child : String) (R : ChildSessionRecord)
    (hg : getRecord store child = some R) :
    pendingQueue store child = normalizePendingForwardRequests R.pendingForwardRequests := by
  unfold pendingQueue
  rw [readRecord_of_getRecord store child R hg]
  rfl

theorem trackingOf_spec (store : RegistryStore) (child : String) (R : ChildSessionRecord)
    (hg : getRecord store child = some R) :
    trackingOf store child = some R.tracking := by
  unfold trackingOf
  rw [readRecord_of_getRecord store child R hg]
  rfl

/-- Claim C3: the stable-idle handler returns with no post (and an untouched
store) when the child's pending queue is empty; and whenever it posts
anything, the child's queue had a head request and exactly that oldest
request has been shifted off. -/
theorem C3_stable_idle_peek_and_shift :
    (∀ (store : RegistryStore) (child : String) (env : IdleEnv),
        peekPendingForwardRequest store child = none →
        handleStableIdle store child env = (store, []))
    ∧ (∀ (store : RegistryStore) (child : String) (env : IdleEnv) (R : ChildSessionRecord),
        getRecord store child = some R →
        (∀ x ∈ R.pendingForwardRequests, x.forwardToken ≠ "") →
        (handleStableIdle store child env).2 ≠ [] →
        ∃ q rest, R.pendingForwardRequests = q :: rest ∧
          pendingQueue (handleStableIdle store child env).1 child = rest) := by
  constructor
  · intro store child env h
    unfold handleStableIdle
    rw [h]
  · intro store child env R hg htok hposted
    have hpeek := peek_spec store child R hg htok
    rcases hqcase : R.pendingForwardRequests with _ | ⟨q, rest⟩
    · exfalso
      apply hposted
      have hnone : handleStableIdle store child env = (store, []) := by
        unfold handleStableIdle
        rw [hpeek, hqcase]
        rfl
      rw [hnone]
    · refine ⟨q, rest, rfl, ?_⟩
      have htokrest : ∀ x ∈ rest, x.forwardToken ≠ "" := fun x hx =>
        htok x (by rw [hqcase]; exact List.mem_cons_of_mem _ hx)
      by_cases hbusy : env.busy = true
      · exfalso
        apply hposted
        have hnone : handleStableIdle store child env = (store, []) := by
          unfold handleStableIdle
          rw [hpeek, hqcase]
          dsimp only [List.head?]
          rw [hbusy]
          rfl
        rw [hnone]
      have hbusyf : env.busy = false := by
        revert hbusy
        cases env.busy <;> simp
      rcases hmsgs : env.messages with _ | msgs
      · exfalso
        apply hposted
        have hnone : handleStableIdle store child env = (store, []) := by
          unfold handleStableIdle
          rw [hpeek, hqcase]
          dsimp only [List.head?]
          rw [hbusyf, hmsgs]
          rfl
        rw [hnone]
      have hrun := handleStableIdle_run store child env R q rest msgs hg htok hqcase hbusyf hmsgs
      rcases hfind : findForwardableAssistantMessage msgs q with _ | f
      · exfalso
        apply hposted
        rw [hrun.1 hfind]
      obtain ⟨hdupEq, hdeliver⟩ := hrun.2 f hfind
      by_cases hdup : R.lastDeliveredAssistantMessageID = some f.assistantMessageID
      · exfalso
        apply hposted
        rw [hdupEq hdup]
      have heq := hdeliver hdup
      obtain ⟨hsh2, R2, hg2, hq2, htr2, hld2, horch2⟩ :=
        shift_cons_spec store child R q rest hg htok hqcase
      obtain ⟨R3, hg3, hld3, htr3, horch3, hq3⟩ :=
        setLastDelivered_spec _ child f.assistantMessageID R2 hg2
      have hq3v : R3.pendingForwardRequests = rest := by
        rw [hq3, hq2]
        exact normalizePendingForwardRequests_of_nonempty _ htokrest
      obtain ⟨R4, hg4, _, hq4, _, _⟩ :=
        markResultReceived_spec _ child env.now (some (truncateText f.text 400)) R3 hg3
      have hq4v : R4.pendingForwardRequests = rest := by
        rw [hq4, hq3v]
        exact normalizePendingForwardRequests_of_nonempty _ htokrest
      rw [heq]
      show pendingQueue
        (markResultReceived
          (setLastDeliveredAssistantMessageID
            (shiftPendingForwardRequest store child).1 child f.assistantMessageID)
          child env.now (some (truncateText f.text 400))) child = rest
      rw [pendingQueue_spec _ child R4 hg4, hq4v]
      exact normalizePendingForwardRequests_of_nonempty _ htokrest

/-- Claim C3, witness: an empty queue yields no post, and a delivery run on
a one-request queue leaves the queue empty. -/
theorem C3_stable_idle_peek_and_shift_witness :
    handleStableIdle
        [("c", ⟨⟨"c", "o", none, "c", 0, none, none⟩, createDefaultTracking, none, []⟩)]
        "c" { busy := false,
              messages := some [⟨⟨"assistant", "a1"⟩,
                [⟨"text", some "done\nopencode_cc_forward_token: T1", none⟩]⟩],
              questionsText := none, now := 5 }
      = ([("c", ⟨⟨"c", "o", none, "c", 0, none, none⟩, createDefaultTracking, none, []⟩)], [])
    ∧ ∃ q rest,
        (⟨⟨"c", "o", none, "c", 0, none, none⟩, createDefaultTracking, none,
          [⟨"T1", 1, none, none⟩]⟩ : ChildSessionRecord).pendingForwardRequests = q :: rest ∧
        pendingQueue
          (handleStableIdle
            [("c", ⟨⟨"c", "o", none, "c", 0, none, none⟩, createDefaultTracking, none,
              [⟨"T1", 1, none, none⟩]⟩)]
            "c" { busy := false,
                  messages := some [⟨⟨"assistant", "a1"⟩,
                    [⟨"text", some "done\nopencode_cc_forward_token: T1", none⟩]⟩],
                  questionsText := none, now := 5 }).1 "c" = rest := by
  constructor
  · exact C3_stable_idle_peek_and_shift.1 _ "c" _ (by decide)
  · exact C3_stable_idle_peek_and_shift.2
      [("c", ⟨⟨"c", "o", none, "c", 0, none, none⟩, createDefaultTracking, none,
        [⟨"T1", 1, none, none⟩]⟩)]
      "c"
      { busy := false,
        messages := some [⟨⟨"assistant", "a1"⟩,
          [⟨"text", some "done\nopencode_cc_forward_token: T1", none⟩]⟩],
        questionsText := none, now := 5 }
      ⟨⟨"c", "o", none, "c", 0, none, none⟩, createDefaultTracking, none,
        [⟨"T1", 1, none, none⟩]⟩
      (by decide) (by decide) (by decide)

/-- Claim C4, counterexample: a child with two pending requests (tokens T1,
T2) and one assistant message carrying both token lines. The first run
delivers the message and records its id. The second run resolves the same
assistant message id (premise of the claim), posts nothing — but does not
leave the registry unchanged: it still shifts the second pending request, so
the stores before and after differ. -/
theorem C4_counterexample :
    (findForwardableAssistantMessage
        [⟨⟨"assistant", "a1"⟩,
          [⟨"text",
            some "body\nopencode_cc_forward_token: T1\nopencode_cc_forward_token: T2",
            none⟩]⟩]
        ⟨"T2", 2, none, none⟩).map (fun f => f.assistantMessageID) = some "a1"
    ∧ getLastDeliveredAssistantMessageID
        (handleStableIdle
          [("c", ⟨⟨"c", "o", none, "c", 0, none, none⟩, createDefaultTracking, none,
            [⟨"T1", 1, none, none⟩, ⟨"T2", 2, none, none⟩]⟩)]
          "c" { busy := false,
                messages := some [⟨⟨"assistant", "a1"⟩,
                  [⟨"text",
                    some "body\nopencode_cc_forward_token: T1\nopencode_cc_forward_token: T2",
                    none⟩]⟩],
                questionsText := none, now := 5 }).1 "c" = some "a1"
    ∧ (handleStableIdle
        (handleStableIdle
          [("c", ⟨⟨"c", "o", none, "c", 0, none, none⟩, createDefaultTracking, none,
            [⟨"T1", 1, none, none⟩, ⟨"T2", 2, none, none⟩]⟩)]
          "c" { busy := false,
                messages := some [⟨⟨"assistant", "a1"⟩,
                  [⟨"text",
                    some "body\nopencode_cc_forward_token: T1\nopencode_cc_forward_token: T2",
                    none⟩]⟩],
                questionsText := none, now := 5 }).1
        "c" { busy := false,
              messages := some [⟨⟨"assistant", "a1"⟩,
                [⟨"text",
                  some "body\nopencode_cc_forward_token: T1\nopencode_cc_forward_token: T2",
                  none⟩]⟩],
              questionsText := none, now := 5 }).2 = []
    ∧ (handleStableIdle
        (handleStableIdle
          [("c", ⟨⟨"c", "o", none, "c", 0, none, none⟩, createDefaultTracking, none,
            [⟨"T1", 1, none, none⟩, ⟨"T2", 2, none, none⟩]⟩)]
          "c" { busy := false,
                messages := some [⟨⟨"assistant", "a1"⟩,
                  [⟨"text",
                    some "body\nopencode_cc_forward_token: T1\nopencode_cc_forward_token: T2",
                    none⟩]⟩],
                questionsText := none, now := 5 }).1
        "c" { busy := false,
              messages := some [⟨⟨"assistant", "a1"⟩,
                [⟨"text",
                  some "body\nopencode_cc_forward_token: T1\nopencode_cc_forward_token: T2",
                  none⟩]⟩],
              questionsText := none, now := 5 }).1
      ≠ (handleStableIdle
          [("c", ⟨⟨"c", "o", none, "c", 0, none, none⟩, createDefaultTracking, none,
            [⟨"T1", 1, none, none⟩, ⟨"T2", 2, none, none⟩]⟩)]
          "c" { busy := false,
                messages := some [⟨⟨"assistant", "a1"⟩,
                  [⟨"text",
                    some "body\nopencode_cc_forward_token: T1\nopencode_cc_forward_token: T2",
                    none⟩]⟩],
                questionsText := none, now := 5 }).1 := by
  refine ⟨by decide, by decide, by decide, by decide⟩

/-- Claim C4, amended: after a stable-idle delivery the last delivered
assistant message id equals the delivered id; a later invocation for which
the resolver picks the already-delivered id posts no message, leaves the
last delivered id and the tracking unchanged — but it does consume (shift)
the pending request it resolved, so the pending queue shrinks by one rather
than staying untouched. -/
theorem C4_at_most_once_delivery :
    (∀ (store : RegistryStore) (child : String) (env : IdleEnv) (R : ChildSessionRecord)
        (store2 : RegistryStore) (posted : List PostedMessage),
        getRecord store child = some R →
        (∀ x ∈ R.pendingForwardRequests, x.forwardToken ≠ "") →
        handleStableIdle store child env = (store2, posted) →
        posted ≠ [] →
        ∃ msgs q rest f, env.messages = some msgs ∧
          R.pendingForwardRequests = q :: rest ∧
          findForwardableAssistantMessage msgs q = some f ∧
          getLastDeliveredAssistantMessageID store2 child = some f.assistantMessageID)
    ∧ (∀ (store : RegistryStore) (child : String) (env : IdleEnv) (R : ChildSessionRecord)
        (q : PendingForwardRequest) (rest : List PendingForwardRequest)
        (msgs : List SessionMessage) (f : ForwardableAssistantMessage),
        getRecord store child = some R →
        (∀ x ∈ R.pendingForwardRequests, x.forwardToken ≠ "") →
        R.pendingForwardRequests = q :: rest →
        env.busy = false →
        env.messages = some msgs →
        findForwardableAssistantMessage msgs q = some f →
        getLastDeliveredAssistantMessageID store child = some f.assistantMessageID →
        (handleStableIdle store child env).2 = [] ∧
        pendingQueue (handleStableIdle store child env).1 child = rest ∧
        getLastDeliveredAssistantMessageID (handleStableIdle store child env).1 child
          = some f.assistantMessageID ∧
        trackingOf (handleStableIdle store child env).1 child = trackingOf store child) := by
  constructor
  · intro store child env R store2 posted hg htok hrunEq hposted
    have hpeek := peek_spec store child R hg htok
    rcases hqcase : R.pendingForwardRequests with _ | ⟨q, rest⟩
    · exfalso
      apply hposted
      have hnone : handleStableIdle store child env = (store, []) := by
        unfold handleStableIdle
        rw [hpeek, hqcase]
        rfl
      rw [hnone] at hrunEq
      exact (Prod.mk.injEq _ _ _ _ ▸ hrunEq).2.symm
    have htokrest : ∀ x ∈ rest, x.forwardToken ≠ "" := fun x hx =>
      htok x (by rw [hqcase]; exact List.mem_cons_of_mem _ hx)
    by_cases hbusy : env.busy = true
    · exfalso
      apply hposted
      have hnone : handleStableIdle store child env = (store, []) := by
        unfold handleStableIdle
        rw [hpeek, hqcase]
        dsimp only [List.head?]
        rw [hbusy]
        rfl
      rw [hnone] at hrunEq
      exact (Prod.mk.injEq _ _ _ _ ▸ hrunEq).2.symm
    have hbusyf : env.busy = false := by
      revert hbusy
      cases env.busy <;> simp
    rcases hmsgs : env.messages with _ | msgs
    · exfalso
      apply hposted
      have hnone : handleStableIdle store child env = (store, []) := by
        unfold handleStableIdle
        rw [hpeek, hqcase]
        dsimp only [List.head?]
        rw [hbusyf, hmsgs]
        rfl
      rw [hnone] at hrunEq
      exact (Prod.mk.injEq _ _ _ _ ▸ hrunEq).2.symm
    have hrun := handleStableIdle_run store child env R q rest msgs hg htok hqcase hbusyf hmsgs
    rcases hfind : findForwardableAssistantMessage msgs q with _ | f
    · exfalso
      apply hposted
      rw [hrun.1 hfind] at hrunEq
      exact (Prod.mk.injEq _ _ _ _ ▸ hrunEq).2.symm
    obtain ⟨hdupEq, hdeliver⟩ := hrun.2 f hfind
    by_cases hdup : R.lastDeliveredAssistantMessageID = some f.assistantMessageID
    · exfalso
      apply hposted
      rw [hdupEq hdup] at hrunEq
      exact (Prod.mk.injEq _ _ _ _ ▸ hrunEq).2.symm
    refine ⟨msgs, q, rest, f, rfl, rfl, hfind, ?_⟩
    have heq := hdeliver hdup
    rw [heq] at hrunEq
    have hstore2 : store2
        = markResultReceived
            (setLastDeliveredAssistantMessageID
              (shiftPendingForwardRequest store child).1 child f.assistantMessageID)
            child env.now (some (truncateText f.text 400)) :=
      ((Prod.mk.injEq _ _ _ _ ▸ hrunEq).1).symm
    obtain ⟨hsh2, R2, hg2, hq2, htr2, hld2, horch2⟩ :=
      shift_cons_spec store child R q rest hg htok hqcase
    obtain ⟨R3, hg3, hld3, htr3, horch3, hq3⟩ :=
      setLastDelivered_spec _ child f.assistantMessageID R2 hg2
    obtain ⟨R4, hg4, _, _, _, hld4⟩ :=
      markResultReceived_spec _ child env.now (some (truncateText f.text 400)) R3 hg3
    rw [hstore2, getLastDelivered_spec _ child R4 hg4, hld4, hld3]
  · intro store child env R q rest msgs f hg htok hq hbusyf hmsgs hfind hld
    have hldR : R.lastDeliveredAssistantMessageID = some f.assistantMessageID := by
      rw [← getLastDelivered_spec store child R hg]
      exact hld
    have hrun := handleStableIdle_run store child env R q rest msgs hg htok hq hbusyf hmsgs
    have heq := (hrun.2 f hfind).1 hldR
    obtain ⟨hsh2, R2, hg2, hq2, htr2, hld2, horch2⟩ :=
      shift_cons_spec store child R q rest hg htok hq
    have htokrest : ∀ x ∈ rest, x.forwardToken ≠ "" := fun x hx =>
      htok x (by rw [hq]; exact List.mem_cons_of_mem _ hx)
    rw [heq]
    refine ⟨rfl, ?_, ?_, ?_⟩
    · show pendingQueue (shiftPendingForwardRequest store child).1 child = rest
      rw [pendingQueue_spec _ child R2 hg2, hq2]
      exact normalizePendingForwardRequests_of_nonempty _ htokrest
    · show getLastDeliveredAssistantMessageID (shiftPendingForwardRequest store child).1 child
        = some f.assistantMessageID
      rw [getLastDelivered_spec _ child R2 hg2, hld2]
      exact hldR
    · show trackingOf (shiftPendingForwardRequest store child).1 child = trackingOf store child
      rw [trackingOf_spec _ child R2 hg2, htr2, trackingOf_spec store child R hg]

/-- Claim C4, witness: the amended statement applied to the two-token
scenario — the first run records the delivered id a1, the second run posts
nothing, consumes the remaining request and keeps the delivered id and the
tracking. -/
theorem C4_at_most_once_delivery_witness :
    ∃ msgs q rest f,
      ({ busy := false,
         messages := some [⟨⟨"assistant", "a1"⟩,
           [⟨"text",
             some "body\nopencode_cc_forward_token: T1\nopencode_cc_forward_token: T2",
             none⟩]⟩],
         questionsText := none, now := 5 } : IdleEnv).messages = some msgs ∧
      (⟨⟨"c", "o", none, "c", 0, none, none⟩, createDefaultTracking, none,
        [⟨"T1", 1, none, none⟩, ⟨"T2", 2, none, none⟩]⟩ :
        ChildSessionRecord).pendingForwardRequests = q :: rest ∧
      findForwardableAssistantMessage msgs q = some f ∧
      getLastDeliveredAssistantMessageID
        (handleStableIdle
          [("c", ⟨⟨"c", "o", none, "c", 0, none, none⟩, createDefaultTracking, none,
            [⟨"T1", 1, none, none⟩, ⟨"T2", 2, none, none⟩]⟩)]
          "c" { busy := false,
                messages := some [⟨⟨"assistant", "a1"⟩,
                  [⟨"text",
                    some "body\nopencode_cc_forward_token: T1\nopencode_cc_forward_token: T2",
                    none⟩]⟩],
                questionsText := none, now := 5 }).1 "c" = some f.assistantMessageID := by
  exact C4_at_most_once_delivery.1
    [("c", ⟨⟨"c", "o", none, "c", 0, none, none⟩, createDefaultTracking, none,
      [⟨"T1", 1, none, none⟩, ⟨"T2", 2, none, none⟩]⟩)]
    "c"
    { busy := false,
      messages := some [⟨⟨"assistant", "a1"⟩,
        [⟨"text",
          some "body\nopencode_cc_forward_token: T1\nopencode_cc_forward_token: T2",
          none⟩]⟩],
      questionsText := none, now := 5 }
    ⟨⟨"c", "o", none, "c", 0, none, none⟩, createDefaultTracking, none,
      [⟨"T1", 1, none, none⟩, ⟨"T2", 2, none, none⟩]⟩
    _ _ (by decide) (by decide) rfl (by decide)

/-! ## Claim C10 — unknown child session handling -/

theorem enqueue_absent (store : RegistryStore) (child : String) (r : PendingForwardRequest)
    (hg : getRecord store child = none) :
    enqueuePendingForwardRequest store child r = store := by
  unfold enqueuePendingForwardRequest readRecord
  rw [hg]
  rfl

theorem remove_absent (store : RegistryStore) (child token : String)
    (hg : getRecord store child = none) :
    removePendingForwardRequest store child token = (store, false) := by
  unfold removePendingForwardRequest readRecord
  rw [hg]
  rfl

theorem isTracked_absent (store : RegistryStore) (child : String)
    (hg : getRecord store child = none) :
    isTrackedChildSession store child = false := by
  unfold isTrackedChildSession getOrchestratorSessionID readRecord
  rw [hg]
  rfl

theorem getChildWorkspaceDirectory_absent (store : RegistryStore) (child : String)
    (hg : getRecord store child = none) :
    getChildWorkspaceDirectory store child = none := by
  unfold getChildWorkspaceDirectory readRecord
  rw [hg]
  rfl

theorem getOrchestratorDirectory_absent (store : RegistryStore) (child : String)
    (hg : getRecord store child = none) :
    getOrchestratorDirectory store child = none := by
  unfold getOrchestratorDirectory readRecord
  rw [hg]
  rfl

/-- Claim C10, counterexample: session_prompt invoked from a non-nested
caller with a child session id absent from the registry does not return an
error — when the host dispatch succeeds it returns status prompt_sent, and
the prompt (with the token instruction appended) is dispatched to the
host. -/
theorem C10_counterexample :
    (sessionPromptExec [] "o1" "ghost" "do it" none
        ⟨"T", 0, none, ("do it", 0, none), none⟩).1.status = "prompt_sent"
    ∧ (sessionPromptExec [] "o1" "ghost" "do it" none
        ⟨"T", 0, none, ("do it", 0, none), none⟩).1.status ≠ "error"
    ∧ (sessionPromptExec [] "o1" "ghost" "do it" none
        ⟨"T", 0, none, ("do it", 0, none), none⟩).2.2
      = [ToolEffect.fetchMessages "ghost",
         ToolEffect.promptAsyncDispatch "ghost"
           (appendForwardTokenInstruction "do it" "T") none] := by
  refine ⟨by decide, by decide, by decide⟩

/-- Claim C10, amended: session_status with an unknown child session id
returns status error, leaves the store unchanged and performs no host call;
session_prompt with an unknown child session id performs no registry state
change (the enqueue, removal and prompt-sent transition are all no-ops) but
still captures a marker and dispatches the prompt to the host, returning
prompt_sent when the dispatch succeeds and an error only when the host call
fails. -/
theorem C10_unknown_child_handling :
    (∀ (store : RegistryStore) (caller argSessionID : String) (refresh : Option Bool)
        (env : StatusEnv),
        getOrchestratorSessionID store argSessionID = none →
        (sessionStatusExec store caller argSessionID refresh env).1.status = "error"
          ∧ (sessionStatusExec store caller argSessionID refresh env).2.1 = store
          ∧ (sessionStatusExec store caller argSessionID refresh env).2.2 = [])
    ∧ (∀ (store : RegistryStore) (caller argSessionID prompt : String)
        (agent : Option String) (env : PromptEnv),
        isNestedOrchestrator store caller = false →
        getRecord store argSessionID = none →
        (sessionPromptExec store caller argSessionID prompt agent env).2.1 = store
          ∧ (sessionPromptExec store caller argSessionID prompt agent env).2.2
            = [ToolEffect.fetchMessages argSessionID,
               ToolEffect.promptAsyncDispatch argSessionID
                 (appendForwardTokenInstruction prompt env.forwardToken) agent]
          ∧ (env.promptError = none →
              (sessionPromptExec store caller argSessionID prompt agent env).1.status
                = "prompt_sent")
          ∧ (∀ e, env.promptError = some e →
              (sessionPromptExec store caller argSessionID prompt agent env).1.status
                = "error")) := by
  constructor
  · intro store caller argSessionID refresh env h
    unfold sessionStatusExec
    rw [h]
    exact ⟨rfl, rfl, rfl⟩
  · intro store caller argSessionID prompt agent env hnested hg
    have hdir := getChildWorkspaceDirectory_absent store argSessionID hg
    have horchdir := getOrchestratorDirectory_absent store argSessionID hg
    have htracked := isTracked_absent store argSessionID hg
    unfold sessionPromptExec
    rw [hnested]
    rw [if_neg (by simp : ¬ (false = true))]
    dsimp only
    rw [hdir, horchdir]
    rw [enqueue_absent store argSessionID _ hg]
    rcases henv : env.promptError with _ | e
    · dsimp only
      rw [htracked]
      rw [if_neg (by simp : ¬ (false = true))]
      exact ⟨rfl, rfl, fun _ => rfl, fun e he => absurd he (by simp)⟩
    · dsimp only
      rw [show (removePendingForwardRequest store argSessionID env.forwardToken).1 = store from
        by rw [remove_absent store argSessionID _ hg]]
      exact ⟨rfl, rfl, fun hcontra => absurd hcontra (by simp), fun x hx => rfl⟩

/-- Claim C10, witness: both parts applied to an empty registry — an
unknown session_status call, and an unknown session_prompt call whose host
dispatch succeeds. -/
theorem C10_unknown_child_handling_witness :
    ((sessionStatusExec [] "o1" "ghost" none ⟨none, none, 0⟩).1.status = "error"
      ∧ (sessionStatusExec [] "o1" "ghost" none ⟨none, none, 0⟩).2.1 = []
      ∧ (sessionStatusExec [] "o1" "ghost" none ⟨none, none, 0⟩).2.2 = [])
    ∧ ((sessionPromptExec [] "o1" "ghost" "do it" none
          ⟨"T", 0, none, ("do it", 0, none), none⟩).2.1 = []
      ∧ (sessionPromptExec [] "o1" "ghost" "do it" none
          ⟨"T", 0, none, ("do it", 0, none), none⟩).2.2
        = [ToolEffect.fetchMessages "ghost",
           ToolEffect.promptAsyncDispatch "ghost"
             (appendForwardTokenInstruction "do it" "T") none]) := by
  constructor
  · exact C10_unknown_child_handling.1 [] "o1" "ghost" none ⟨none, none, 0⟩ (by decide)
  · refine ⟨?_, ?_⟩
    · exact (C10_unknown_child_handling.2 [] "o1" "ghost" "do it" none
        ⟨"T", 0, none, ("do it", 0, none), none⟩ (by decide) (by decide)).1
    · exact (C10_unknown_child_handling.2 [] "o1" "ghost" "do it" none
        ⟨"T", 0, none, ("do it", 0, none), none⟩ (by decide) (by decide)).2.1

end OpencodeCC
